import Mathlib

/-!
# ir-explorer: shallow embedding of the retrieval and consistency engine

This file embeds the database controller of the ir-explorer backend
(`backend/app/db/controller.py`) as pure Lean functions over an explicit
relational store.  Tables are lists of rows; SQL `INSERT` statements that
insert a batch of rows are modelled as a row-by-row constraint-checked fold
that fails as a whole on the first violation (statement-level atomicity);
the transaction boundary (`provide_transaction` in `backend/app/db/__init__.py`)
rolls a failed operation back, which the model expresses by returning the
original store together with the error.

The ORM schema module (`db/schema.py`) is not part of the available sources;
its table constraints (primary keys, uniqueness, foreign keys) are modelled
from the spec (section 3, Invariants), as noted on the individual
definitions.  Engine-level full-text primitives (`websearch_to_tsquery`,
`@@`, `ts_rank_cd`, `ts_headline`) and the planner statistics functions
(`estimate_num_docs`, `estimate_num_queries`) are external to the core and
are passed in as explicit function parameters.
-/

namespace IRExplorer

/-- A corpus row (`ORMCorpus`): surrogate id, unique name, language. -/
structure Corpus where
  id : Nat
  name : String
  language : String
deriving DecidableEq, Repr

/-- A dataset row (`ORMDataset`): surrogate id, name (unique per corpus),
owning corpus and the relevance threshold. -/
structure Dataset where
  id : Nat
  name : String
  corpus_id : Nat
  min_relevance : Int
deriving DecidableEq, Repr

/-- A document row (`ORMDocument`): id (unique per corpus), owning corpus,
optional title, text, and the language copied from the corpus at insert
time. -/
structure Document where
  id : String
  corpus_id : Nat
  title : Option String
  text : String
  language : String
deriving DecidableEq, Repr

/-- A query row (`ORMQuery`): id (unique per dataset), owning dataset, text
and optional description. -/
structure QueryRow where
  id : String
  dataset_id : Nat
  text : String
  description : Option String
deriving DecidableEq, Repr

/-- A QRel row (`ORMQRel`): the judged pair together with the owning corpus
and dataset and the graded relevance. -/
structure QRelRow where
  query_id : String
  document_id : String
  corpus_id : Nat
  dataset_id : Nat
  relevance : Int
deriving DecidableEq, Repr

/-- The relational store: one list per table, the set of full-text
configurations installed in the engine (`pg_catalog.pg_ts_config`), and the
surrogate-key sequences for corpora and datasets. -/
structure Store where
  languages : List String
  corpora : List Corpus
  datasets : List Dataset
  documents : List Document
  queries : List QueryRow
  qrels : List QRelRow
  nextCorpusId : Nat
  nextDatasetId : Nat
deriving DecidableEq, Repr

/-- Errors surfaced by the controller.  `conflict`, `notFound` and
`invalidArgument` are the typed taxonomy (HTTP 409 / 404 / 400);
`noResultFound` is the *untranslated* SQLAlchemy `NoResultFound` exception
escaping an endpoint that does not catch it, and `programmingError` the
*untranslated* engine `ProgrammingError` (e.g. an uninstalled full-text
configuration reaching `websearch_to_tsquery` outside any try block). -/
inductive DBError where
  | conflict
  | notFound
  | invalidArgument
  | noResultFound
  | programmingError
deriving DecidableEq, Repr

/-- Whether an error belongs to the typed taxonomy of the spec. -/
def DBError.typed : DBError → Bool
  | .conflict | .notFound | .invalidArgument => true
  | .noResultFound | .programmingError => false

/-- Input record for `create_corpus` (`CorpusInfo`). -/
structure CorpusInfo where
  name : String
  language : String
deriving DecidableEq, Repr

/-- Input record for `create_dataset` (`DatasetInfo`). -/
structure DatasetInfo where
  name : String
  corpus_name : String
  min_relevance : Int
deriving DecidableEq, Repr

/-- Input record for `add_documents` (`DocumentInfo`). -/
structure DocumentInfo where
  id : String
  title : Option String
  text : String
deriving DecidableEq, Repr

/-- Input record for `add_queries` (`QueryInfo`). -/
structure QueryInfo where
  id : String
  text : String
  description : Option String
deriving DecidableEq, Repr

/-- Input record for `add_qrels` (`QRelInfo`). -/
structure QRelInfo where
  query_id : String
  document_id : String
  relevance : Int
deriving DecidableEq, Repr

/-- `SELECT ... FROM corpus WHERE name = ...` under the unique-name
constraint. -/
def findCorpus (s : Store) (corpus_name : String) : Option Corpus :=
  s.corpora.find? (fun c => c.name == corpus_name)

/-- The dataset CTE used by `add_queries` / `add_qrels` / `get_query`:
`SELECT dataset JOIN corpus WHERE dataset.name = ... AND corpus.name = ...`
under the uniqueness of corpus names and of `(corpus, name)` on datasets. -/
def findDataset (s : Store) (corpus_name dataset_name : String) : Option Dataset :=
  match findCorpus s corpus_name with
  | none => none
  | some c => s.datasets.find? (fun d => d.corpus_id == c.id && d.name == dataset_name)

/-- A multi-row SQL `INSERT` checked row by row: `key` is the uniqueness
constraint on the target table and `fkOk` the per-row referential checks.
The first violating row aborts the whole statement (`IntegrityError`), so
either all rows are appended or the table is unchanged.  Modelled from the
spec: the constraints themselves live in the unavailable `db/schema.py`. -/
def insertRows {α κ : Type} [DecidableEq κ] (key : α → κ) (fkOk : α → Bool) :
    List α → List α → Option (List α)
  | tbl, [] => some tbl
  | tbl, r :: rest =>
    if fkOk r && tbl.all (fun t => !(key t == key r)) then
      insertRows key fkOk (tbl ++ [r]) rest
    else
      none

/-- `create_corpus`: fails with `Conflict` when the name already exists
(unique constraint) or the language is not an installed full-text
configuration (the engine raises `ProgrammingError`, which the endpoint also
maps to 409). -/
def create_corpus (s : Store) (data : CorpusInfo) : Except DBError Store :=
  if s.corpora.any (fun c => c.name == data.name) || !(s.languages.contains data.language) then
    .error .conflict
  else
    .ok { s with
      corpora := s.corpora ++ [⟨s.nextCorpusId, data.name, data.language⟩],
      nextCorpusId := s.nextCorpusId + 1 }

/-- `create_dataset`: the corpus id is resolved by a scalar subquery; a
missing corpus yields NULL and violates the NOT NULL / foreign-key
constraint, a duplicate `(corpus, name)` violates uniqueness — either way
the endpoint returns `Conflict`. -/
def create_dataset (s : Store) (data : DatasetInfo) : Except DBError Store :=
  match findCorpus s data.corpus_name with
  | none => .error .conflict
  | some c =>
    if s.datasets.any (fun d => d.corpus_id == c.id && d.name == data.name) then
      .error .conflict
    else
      .ok { s with
        datasets := s.datasets ++ [⟨s.nextDatasetId, data.name, c.id, data.min_relevance⟩],
        nextDatasetId := s.nextDatasetId + 1 }

/-- `add_documents`: the corpus is resolved once via a CTE and every row of
the batch draws `corpus_id` and `language` from that single lookup; a failed
resolution (NULL corpus id) or a duplicate `(corpus_id, id)` key aborts the
whole insert with `Conflict`. -/
def add_documents (s : Store) (corpus_name : String) (data : List DocumentInfo) :
    Except DBError Store :=
  match findCorpus s corpus_name with
  | none => .error .conflict
  | some c =>
    match insertRows (fun (d : Document) => (d.corpus_id, d.id)) (fun _ => true)
        s.documents (data.map (fun d => ⟨d.id, c.id, d.title, d.text, c.language⟩)) with
    | none => .error .conflict
    | some tbl => .ok { s with documents := tbl }

/-- `add_queries`: the `(corpus, dataset)` pair is resolved once via a CTE;
a failed resolution or duplicate `(dataset_id, id)` aborts the batch with
`Conflict`. -/
def add_queries (s : Store) (corpus_name dataset_name : String) (data : List QueryInfo) :
    Except DBError Store :=
  match findDataset s corpus_name dataset_name with
  | none => .error .conflict
  | some d =>
    match insertRows (fun (q : QueryRow) => (q.dataset_id, q.id)) (fun _ => true)
        s.queries (data.map (fun q => ⟨q.id, d.id, q.text, q.description⟩)) with
    | none => .error .conflict
    | some tbl => .ok { s with queries := tbl }

/-- Referential checks on one QRel row, modelled from the spec: the query
must exist in the QRel's dataset and the document in the dataset's corpus
(composite foreign keys in the unavailable `db/schema.py`). -/
def qrelFkOk (s : Store) (r : QRelRow) : Bool :=
  s.queries.any (fun q => q.dataset_id == r.dataset_id && q.id == r.query_id) &&
  s.documents.any (fun doc => doc.corpus_id == r.corpus_id && doc.id == r.document_id)

/-- `add_qrels`: the `(corpus, dataset)` pair is resolved once via a CTE and
every row draws `corpus_id` and `dataset_id` from that single lookup; a
failed resolution, a broken query/document reference, or a duplicate
`(dataset, query, document)` aborts the batch with `Conflict`. -/
def add_qrels (s : Store) (corpus_name dataset_name : String) (data : List QRelInfo) :
    Except DBError Store :=
  match findDataset s corpus_name dataset_name with
  | none => .error .conflict
  | some d =>
    match insertRows (fun (r : QRelRow) => (r.dataset_id, r.query_id, r.document_id))
        (qrelFkOk s) s.qrels
        (data.map (fun r => ⟨r.query_id, r.document_id, d.corpus_id, d.id, r.relevance⟩)) with
    | none => .error .conflict
    | some tbl => .ok { s with qrels := tbl }

/-- `remove_dataset`: the dataset id is a scalar subquery; when the dataset
does not exist the subquery is NULL and the three deletes match nothing.
QRels, queries and the dataset row are deleted in that order. -/
def remove_dataset (s : Store) (corpus_name dataset_name : String) : Except DBError Store :=
  match findDataset s corpus_name dataset_name with
  | none => .ok s
  | some d =>
    .ok { s with
      qrels := s.qrels.filter (fun r => !(r.dataset_id == d.id)),
      queries := s.queries.filter (fun q => !(q.dataset_id == d.id)),
      datasets := s.datasets.filter (fun d2 => !(d2.id == d.id)) }

/-- `remove_corpus`: the corpus is resolved with `.scalar_one()`, so a
missing corpus raises SQLAlchemy's `NoResultFound`, which this endpoint does
*not* catch (it only catches `IntegrityError` around the deletes); a corpus
still owning datasets is rejected with `Conflict`; otherwise its documents
and then the corpus row are deleted, any remaining foreign-key reference to
them (a QRel of the corpus) surfacing as `Conflict`. -/
def remove_corpus (s : Store) (corpus_name : String) : Except DBError Store :=
  match findCorpus s corpus_name with
  | none => .error .noResultFound
  | some c =>
    if (s.datasets.filter (fun d => d.corpus_id == c.id)).length > 0 then
      .error .conflict
    else if s.qrels.any (fun r => r.corpus_id == c.id) then
      .error .conflict
    else
      .ok { s with
        documents := s.documents.filter (fun d => !(d.corpus_id == c.id)),
        corpora := s.corpora.filter (fun c2 => !(c2.id == c.id)) }

/-- `get_available_languages`: the installed full-text configurations. -/
def get_available_languages (s : Store) : List String :=
  s.languages

/-- A paginated listing result (`Paginated[T]`). -/
structure Paginated (α : Type) where
  items : List α
  offset : Nat
  total_num_items : Nat
deriving DecidableEq, Repr

/-- `OFFSET`/`LIMIT` applied to an ordered result set: skip `offset` rows,
then keep at most `limit` rows when a limit is given. -/
def paginate {α : Type} (l : List α) (limit : Option Nat) (offset : Nat) : List α :=
  match limit with
  | none => l.drop offset
  | some n => (l.drop offset).take n

/-- Output row of `get_corpora` (`Corpus` response model). -/
structure CorpusOut where
  name : String
  language : String
  num_datasets : Nat
  num_documents_estimate : Nat
deriving DecidableEq, Repr

/-- `get_corpora`: corpora INNER JOINed with their datasets and grouped by
corpus, so each listed corpus carries its dataset count and a planner
estimate of its document count; a corpus with zero datasets produces no
join row and is absent from the result.  `est` stands for the external
`estimate_num_docs` database function. -/
def get_corpora (s : Store) (est : Nat → Nat) : List CorpusOut :=
  s.corpora.filterMap (fun c =>
    let n := (s.datasets.filter (fun d => d.corpus_id == c.id)).length
    if n == 0 then none
    else some ⟨c.name, c.language, n, est c.id⟩)

/-- Output row of `get_datasets` (`Dataset` response model). -/
structure DatasetOut where
  name : String
  corpus_name : String
  min_relevance : Int
  num_queries_estimate : Nat
deriving DecidableEq, Repr

/-- `get_datasets`: datasets of the named corpus with a planner estimate of
their query counts (`estimate_num_queries`, passed in as `est`). -/
def get_datasets (s : Store) (est : Nat → Nat) (corpus_name : String) : List DatasetOut :=
  s.datasets.filterMap (fun d =>
    match s.corpora.find? (fun c => c.id == d.corpus_id) with
    | none => none
    | some c =>
      if c.name == corpus_name then some ⟨d.name, corpus_name, d.min_relevance, est d.id⟩
      else none)

/-- Output row of `get_queries` / `get_query` (`Query` response model). -/
structure QueryOut where
  id : String
  corpus_name : String
  dataset_name : String
  text : String
  description : Option String
  num_relevant_documents : Nat
deriving DecidableEq, Repr

/-- The full (unpaginated) result set of `get_queries`: queries joined with
their dataset and corpus, filtered by corpus name and the optional dataset
and full-text filters, each with the count of its QRels (in its own
dataset) that meet the dataset's `min_relevance` threshold.  `matchFn`
stands for the engine's full-text match test on the query text.  The SQL
carries no ORDER BY, so this fixes one enumeration (the table's list
order); the engine does not guarantee separate statements share it — see
`get_queries_rows_from`. -/
def get_queries_rows (s : Store) (corpus_name : String) (dataset_name : Option String)
    (matchFn : Option (String → Bool)) : List (QueryRow × Nat × String) :=
  s.queries.filterMap (fun q =>
    match s.datasets.find? (fun d => d.id == q.dataset_id) with
    | none => none
    | some d =>
      match s.corpora.find? (fun c => c.id == d.corpus_id) with
      | none => none
      | some c =>
        if c.name == corpus_name
            && (match dataset_name with | none => true | some dn => d.name == dn)
            && (match matchFn with | none => true | some f => f q.text) then
          some (q,
            (s.qrels.filter (fun r => r.query_id == q.id && r.dataset_id == d.id
              && decide (r.relevance ≥ d.min_relevance))).length,
            d.name)
        else none)

/-- `get_queries`: the page is cut out of the joined result set, the total
comes from a separate count query over the same joins and filters. -/
def get_queries (s : Store) (corpus_name : String) (dataset_name : Option String)
    (matchFn : Option (String → Bool)) (num_results : Option Nat) (offset : Nat) :
    Paginated QueryOut :=
  let rows := get_queries_rows s corpus_name dataset_name matchFn
  { items := (paginate rows num_results offset).map (fun x =>
      ⟨x.1.id, corpus_name, x.2.2, x.1.text, x.1.description, x.2.1⟩),
    offset := offset,
    total_num_items := rows.length }

/-- `get_query`: point lookup of one query joined with its dataset and
corpus; the relevant-QRel count joins QRels on the query id and the
threshold only (the generated SQL has no dataset constraint on the QRel).
Zero result rows raise `NoResultFound`, which the endpoint translates to
404; more than one row would raise an untranslated `MultipleResultsFound`
(impossible on a well-formed store). -/
def get_query_rows (s : Store) (corpus_name dataset_name query_id : String) :
    List (QueryRow × Nat) :=
  s.queries.filterMap (fun q =>
    if q.id == query_id then
      match s.datasets.find? (fun d => d.id == q.dataset_id && d.name == dataset_name) with
      | none => none
      | some d =>
        match s.corpora.find? (fun c => c.id == d.corpus_id && c.name == corpus_name) with
        | none => none
        | some _ => some (q, (s.qrels.filter (fun r =>
            r.query_id == q.id && decide (r.relevance ≥ d.min_relevance))).length)
    else none)

/-- The `.one()` call on the `get_query` result set. -/
def get_query (s : Store) (corpus_name dataset_name query_id : String) :
    Except DBError (QueryRow × Nat) :=
  match get_query_rows s corpus_name dataset_name query_id with
  | [] => .error .notFound
  | [r] => .ok r
  | _ => .error .noResultFound

/-- `get_document`: point lookup of one document, INNER JOINed with the
corpus's datasets (so a corpus without datasets yields zero rows) and
grouped back to one row per document; the count aggregates, per dataset of
the corpus, the QRels whose `document_id` matches and whose relevance meets
that dataset's threshold (the generated SQL constrains the QRel join
neither to the dataset nor to the corpus).  Zero rows raise `NoResultFound`
(translated to 404). -/
def get_document_rows (s : Store) (corpus_name document_id : String) :
    List (Document × Nat) :=
  s.documents.filterMap (fun doc =>
    match s.corpora.find? (fun c => c.id == doc.corpus_id && c.name == corpus_name) with
    | none => none
    | some c =>
      if doc.id == document_id then
        let dsets := s.datasets.filter (fun d => d.corpus_id == c.id)
        if dsets.isEmpty then none
        else some (doc, (dsets.map (fun d =>
          (s.qrels.filter (fun r => r.document_id == doc.id
            && decide (r.relevance ≥ d.min_relevance))).length)).sum)
      else none)

/-- The `.one()` call on the `get_document` result set. -/
def get_document (s : Store) (corpus_name document_id : String) :
    Except DBError (Document × Nat) :=
  match get_document_rows s corpus_name document_id with
  | [] => .error .notFound
  | [r] => .ok r
  | _ => .error .noResultFound

/-- Output row of `get_documents` / `get_document` (`Document` response
model). -/
structure DocumentOut where
  id : String
  corpus_name : String
  title : Option String
  text : String
  num_relevant_queries : Nat
deriving DecidableEq, Repr

/-- The full (unpaginated) result set of `get_documents`: documents of the
corpus INNER JOINed with the corpus's datasets (a corpus with zero datasets
yields no rows) and grouped per document, counting the QRels that reference
the document in each dataset and meet that dataset's threshold.  The SQL
carries no ORDER BY, so this fixes one enumeration (the table's list
order); the engine does not guarantee separate statements share it — see
`get_documents_rows_from`. -/
def get_documents_rows (s : Store) (corpus_name : String) : List (Document × Nat) :=
  s.documents.filterMap (fun doc =>
    match s.corpora.find? (fun c => c.id == doc.corpus_id) with
    | none => none
    | some c =>
      if c.name == corpus_name then
        let dsets := s.datasets.filter (fun d => d.corpus_id == c.id)
        if dsets.isEmpty then none
        else some (doc, (dsets.map (fun d =>
          (s.qrels.filter (fun r => r.document_id == doc.id && r.dataset_id == d.id
            && decide (r.relevance ≥ d.min_relevance))).length)).sum)
      else none)

/-- The separate count query of `get_documents`: all documents of the
corpus, with no dataset join. -/
def get_documents_total (s : Store) (corpus_name : String) : Nat :=
  (s.documents.filter (fun doc =>
    match s.corpora.find? (fun c => c.id == doc.corpus_id) with
    | none => false
    | some c => c.name == corpus_name)).length

/-- `get_documents`: page from the joined result set, total from the
separate count query. -/
def get_documents (s : Store) (corpus_name : String) (num_results : Option Nat)
    (offset : Nat) : Paginated DocumentOut :=
  let rows := get_documents_rows s corpus_name
  { items := (paginate rows num_results offset).map (fun x =>
      ⟨x.1.id, corpus_name, x.1.title, x.1.text, x.2⟩),
    offset := offset,
    total_num_items := get_documents_total s corpus_name }

/-- Output row of `get_qrels` (`QRel` response model), hydrated with the
query's and the document's summary fields. -/
structure QRelOut where
  query_info : QueryInfo
  document_info : DocumentInfo
  relevance : Int
  corpus_name : String
  dataset_name : String
deriving DecidableEq, Repr

/-- The full (unpaginated) result set of `get_qrels`: QRels joined with
their dataset and corpus, restricted to the named corpus, to the rows
meeting the dataset's threshold and to the optional document/dataset/query
filters, ordered by relevance descending.  ORDER BY relevance DESC leaves
tie order unspecified per statement; this fixes one order (stable sort of
the table's list order) — see `get_qrels_rows_from`. -/
def get_qrels_rows (s : Store) (corpus_name : String)
    (document_id dataset_name query_id : Option String) : List QRelRow :=
  let filtered := s.qrels.filterMap (fun r =>
    match s.datasets.find? (fun d => d.id == r.dataset_id) with
    | none => none
    | some d =>
      match s.corpora.find? (fun c => c.id == d.corpus_id) with
      | none => none
      | some c =>
        if c.name == corpus_name && decide (r.relevance ≥ d.min_relevance)
            && (match document_id with | none => true | some x => r.document_id == x)
            && (match dataset_name with | none => true | some x => d.name == x)
            && (match query_id with | none => true | some x => r.query_id == x) then
          some r
        else none)
  filtered.mergeSort (fun a b => decide (b.relevance ≤ a.relevance))

/-- The `joinedload` hydration of one QRel: its document (with its corpus)
and its query (with its dataset). -/
def hydrateQRel (s : Store) (r : QRelRow) : Option QRelOut :=
  match s.documents.find? (fun doc => doc.corpus_id == r.corpus_id && doc.id == r.document_id),
        s.queries.find? (fun q => q.dataset_id == r.dataset_id && q.id == r.query_id),
        s.datasets.find? (fun d => d.id == r.dataset_id) with
  | some doc, some q, some d =>
    match s.corpora.find? (fun c => c.id == doc.corpus_id) with
    | some c => some ⟨⟨q.id, q.text, q.description⟩, ⟨doc.id, doc.title, doc.text⟩,
        r.relevance, c.name, d.name⟩
    | none => none
  | _, _, _ => none

/-- `get_qrels`: page from the ordered result set (hydrated), total from a
separate count query over the same joins and filters. -/
def get_qrels (s : Store) (corpus_name : String)
    (document_id dataset_name query_id : Option String)
    (num_results : Option Nat) (offset : Nat) : Paginated QRelOut :=
  let rows := get_qrels_rows s corpus_name document_id dataset_name query_id
  { items := (paginate rows num_results offset).filterMap (hydrateQRel s),
    offset := offset,
    total_num_items := rows.length }

/-- One scored full-text search hit before snippet computation (the labeled
columns of the page subquery in `search_documents`). -/
structure SearchRow where
  id : String
  title : Option String
  text : String
  corpus_name : String
  score : Int
deriving DecidableEq, Repr

/-- The `ORDER BY score DESC, id` comparison of `search_documents`. -/
def searchLE (a b : SearchRow) : Bool :=
  decide (b.score < a.score) || (a.score == b.score && decide (a.id ≤ b.id))

/-- Output row of `search_documents` (`DocumentSearchHit` response model). -/
structure DocumentSearchHit where
  id : String
  corpus_name : String
  title : Option String
  snippet : String
  score : Int
deriving DecidableEq, Repr

/-- The full (unpaginated) hit list of `search_documents`: documents whose
full-text vector matches the query (`tsMatch` stands for
`text_tsv @@ websearch_to_tsquery(language, q)`), restricted to the corpus
filter when given, scored by the engine's cover-density rank (`rank` stands
for `ts_rank_cd`) and ordered by score descending with ties by document id
ascending (stable). -/
def search_rows (s : Store) (tsMatch : Document → Bool) (rank : Document → Int)
    (corpus_filter : Option (List String)) : List SearchRow :=
  let matched := s.documents.filterMap (fun doc =>
    match s.corpora.find? (fun c => c.id == doc.corpus_id) with
    | none => none
    | some c =>
      if tsMatch doc
          && (match corpus_filter with | none => true | some l => l.contains c.name) then
        some ⟨doc.id, doc.title, doc.text, c.name, rank doc⟩
      else none)
  matched.mergeSort searchLE

/-- `search_documents`: the total comes from a separate count query over
the same match filter; the page is cut out of the ordered hit list and only
then are snippets computed (`headline` stands for `ts_headline` with up to
5 fragments joined by a literal delimiter).  This is the success path for
an installed language; the endpoint's language argument and its failure
mode are modelled by `search_documents_checked` below. -/
def search_documents (s : Store) (tsMatch : Document → Bool) (rank : Document → Int)
    (headline : String → String) (corpus_filter : Option (List String))
    (num_results : Option Nat) (offset : Nat) : Paginated DocumentSearchHit :=
  let rows := search_rows s tsMatch rank corpus_filter
  { items := (paginate rows num_results offset).map (fun r =>
      ⟨r.id, r.corpus_name, r.title, headline r.text, r.score⟩),
    offset := offset,
    total_num_items := rows.length }

/-- The `search_documents` endpoint with its `language` argument: the
engine evaluates `websearch_to_tsquery(language, q)` inside the count and
page statements, and an uninstalled language configuration raises a
`ProgrammingError` that no try block in this endpoint catches (unlike
`create_corpus`, which maps it to 409).  The installed configurations are
exactly `s.languages` (spec, section 6). -/
def search_documents_checked (s : Store) (language : String) (tsMatch : Document → Bool)
    (rank : Document → Int) (headline : String → String)
    (corpus_filter : Option (List String)) (num_results : Option Nat) (offset : Nat) :
    Except DBError (Paginated DocumentSearchHit) :=
  if s.languages.contains language then
    .ok (search_documents s tsMatch rank headline corpus_filter num_results offset)
  else
    .error .programmingError

/-- The mutating operations of the entity store. -/
inductive Op where
  | createCorpus (data : CorpusInfo)
  | createDataset (data : DatasetInfo)
  | addDocuments (corpus_name : String) (data : List DocumentInfo)
  | addQueries (corpus_name dataset_name : String) (data : List QueryInfo)
  | addQRels (corpus_name dataset_name : String) (data : List QRelInfo)
  | removeDataset (corpus_name dataset_name : String)
  | removeCorpus (corpus_name : String)
deriving DecidableEq, Repr

/-- Dispatch of a mutating operation. -/
def applyOp (s : Store) : Op → Except DBError Store
  | .createCorpus data => create_corpus s data
  | .createDataset data => create_dataset s data
  | .addDocuments cn data => add_documents s cn data
  | .addQueries cn dn data => add_queries s cn dn data
  | .addQRels cn dn data => add_qrels s cn dn data
  | .removeDataset cn dn => remove_dataset s cn dn
  | .removeCorpus cn => remove_corpus s cn

/-- The transaction boundary: a failed operation is rolled back, so the
caller observes the original store together with the error. -/
def runOp (s : Store) (op : Op) : Store × Option DBError :=
  match applyOp s op with
  | .ok s2 => (s2, none)
  | .error e => (s, some e)

/-- Well-formedness of a store: exactly the uniqueness and referential
constraints the database schema enforces on every reachable state
(modelled from the spec, section 3: the schema module itself is not among
the available sources). -/
def Store.wf (s : Store) : Prop :=
  s.corpora.Pairwise (fun a b => a.id ≠ b.id ∧ a.name ≠ b.name) ∧
  s.datasets.Pairwise (fun a b => a.id ≠ b.id ∧ (a.corpus_id ≠ b.corpus_id ∨ a.name ≠ b.name)) ∧
  (∀ d ∈ s.datasets, ∃ c ∈ s.corpora, c.id = d.corpus_id) ∧
  s.documents.Pairwise (fun a b => a.corpus_id ≠ b.corpus_id ∨ a.id ≠ b.id) ∧
  (∀ doc ∈ s.documents, ∃ c ∈ s.corpora, c.id = doc.corpus_id) ∧
  s.queries.Pairwise (fun a b => a.dataset_id ≠ b.dataset_id ∨ a.id ≠ b.id) ∧
  (∀ q ∈ s.queries, ∃ d ∈ s.datasets, d.id = q.dataset_id) ∧
  s.qrels.Pairwise (fun a b =>
    a.dataset_id ≠ b.dataset_id ∨ a.query_id ≠ b.query_id ∨ a.document_id ≠ b.document_id) ∧
  (∀ r ∈ s.qrels, ∃ d ∈ s.datasets, d.id = r.dataset_id ∧ d.corpus_id = r.corpus_id)

instance (s : Store) : Decidable s.wf := by
  unfold Store.wf
  infer_instance

/-- Characterization of the batched insert: it succeeds exactly when every
row passes its referential checks, the batch carries no duplicate key, and
no key collides with the existing table — and then the result is the table
with the whole batch appended. -/
theorem insertRows_some_iff {α κ : Type} [DecidableEq κ] (key : α → κ) (fkOk : α → Bool) :
    ∀ (rows tbl out : List α),
      insertRows key fkOk tbl rows = some out ↔
        (out = tbl ++ rows ∧ rows.Pairwise (fun a b => key a ≠ key b) ∧
         (∀ r ∈ rows, fkOk r = true) ∧ ∀ r ∈ rows, ∀ t ∈ tbl, key t ≠ key r)
  | [], tbl, out => by
    simp only [insertRows, Option.some_inj, List.append_nil, List.Pairwise.nil,
      List.not_mem_nil, false_implies, implies_true, and_true]
    constructor
    · rintro rfl; simp
    · rintro ⟨rfl, -⟩; rfl
  | r :: rest, tbl, out => by
    simp only [insertRows]
    by_cases hc : (fkOk r && tbl.all fun t => !(key t == key r)) = true
    · rw [if_pos hc]
      rw [insertRows_some_iff key fkOk rest (tbl ++ [r]) out]
      simp only [Bool.and_eq_true, List.all_eq_true, Bool.not_eq_eq_eq_not, Bool.not_true,
        beq_eq_false_iff_ne, ne_eq] at hc
      obtain ⟨hfk, hfresh⟩ := hc
      constructor
      · rintro ⟨hout, hpw, hfks, hnew⟩
        refine ⟨by simpa using hout, ?_, ?_, ?_⟩
        · exact List.pairwise_cons.2 ⟨fun b hb => (hnew b hb r (by simp)).symm ∘ Eq.symm, hpw⟩
        · intro x hx
          rcases hx with _ | hx
          · exact hfk
          · exact hfks x (by assumption)
        · intro x hx t ht
          rcases hx with _ | hx
          · exact hfresh t ht
          · exact hnew x (by assumption) t (by simp [ht])
      · rintro ⟨hout, hpw, hfks, hnew⟩
        rcases List.pairwise_cons.1 hpw with ⟨hr, hpw'⟩
        refine ⟨by simpa using hout, hpw', fun x hx => hfks x (by simp [hx]), ?_⟩
        intro x hx t ht
        rcases List.mem_append.1 ht with ht' | ht'
        · exact hnew x (by simp [hx]) t ht'
        · rcases List.mem_singleton.1 ht' with rfl
          exact hr x hx
    · rw [if_neg hc]
      simp only [Bool.and_eq_true, List.all_eq_true, Bool.not_eq_eq_eq_not, Bool.not_true,
        beq_eq_false_iff_ne, ne_eq, not_and, not_forall] at hc
      constructor
      · intro h; cases h
      · rintro ⟨hout, hpw, hfks, hnew⟩
        exfalso
        by_cases hfk : fkOk r = true
        · rcases hc hfk with ⟨t, ht, hkey⟩
          exact hkey (hnew r (by simp) t ht) |>.elim
        · exact hfk (hfks r (by simp))

/-- The batched insert fails exactly when some constraint is violated. -/
theorem insertRows_none_iff {α κ : Type} [DecidableEq κ] (key : α → κ) (fkOk : α → Bool)
    (rows tbl : List α) :
    insertRows key fkOk tbl rows = none ↔
      ¬(rows.Pairwise (fun a b => key a ≠ key b) ∧ (∀ r ∈ rows, fkOk r = true) ∧
        ∀ r ∈ rows, ∀ t ∈ tbl, key t ≠ key r) := by
  constructor
  · intro h hcond
    have h2 := (insertRows_some_iff key fkOk rows tbl (tbl ++ rows)).2
      ⟨rfl, hcond.1, hcond.2.1, hcond.2.2⟩
    rw [h] at h2
    cases h2
  · intro h
    cases heq : insertRows key fkOk tbl rows with
    | none => rfl
    | some out =>
      rcases (insertRows_some_iff key fkOk rows tbl out).1 heq with ⟨-, h1, h2, h3⟩
      exact absurd ⟨h1, h2, h3⟩ h

/-- `add_documents` on a resolvable corpus: succeeds (appending the whole
batch, all rows stamped with the one resolved corpus) exactly when the
batch has no internal duplicate id and no id already present in the
corpus. -/
theorem add_documents_spec (s : Store) (cn : String) (data : List DocumentInfo) (c : Corpus)
    (hc : findCorpus s cn = some c) :
    add_documents s cn data =
      if ((data.map DocumentInfo.id).Pairwise (· ≠ ·) ∧
          ∀ info ∈ data, ∀ doc ∈ s.documents, (doc.corpus_id, doc.id) ≠ (c.id, info.id))
      then .ok { s with documents :=
        s.documents ++ data.map (fun d => ⟨d.id, c.id, d.title, d.text, c.language⟩) }
      else .error .conflict := by
  have pw : (data.map (fun d => (⟨d.id, c.id, d.title, d.text, c.language⟩ : Document))).Pairwise
        (fun a b => (a.corpus_id, a.id) ≠ (b.corpus_id, b.id)) ↔
      (data.map DocumentInfo.id).Pairwise (· ≠ ·) := by
    rw [List.pairwise_map, List.pairwise_map]
    refine List.Pairwise.iff (fun a b => ?_)
    constructor
    · intro hne heq
      exact hne (by simp [heq])
    · intro hne heq
      have : a.id = b.id := by simpa using heq
      exact hne this
  have fr : (∀ r ∈ data.map (fun d => (⟨d.id, c.id, d.title, d.text, c.language⟩ : Document)),
        ∀ t ∈ s.documents, (t.corpus_id, t.id) ≠ (r.corpus_id, r.id)) ↔
      (∀ info ∈ data, ∀ doc ∈ s.documents, (doc.corpus_id, doc.id) ≠ (c.id, info.id)) := by
    constructor
    · intro h info hinfo doc hdoc
      exact h _ (List.mem_map_of_mem _ hinfo) doc hdoc
    · intro h r hr t ht
      rcases List.mem_map.1 hr with ⟨info, hinfo, rfl⟩
      exact h info hinfo t ht
  have cond : ((data.map (fun d => (⟨d.id, c.id, d.title, d.text, c.language⟩ : Document))).Pairwise
        (fun a b => (a.corpus_id, a.id) ≠ (b.corpus_id, b.id)) ∧
      (∀ r ∈ data.map (fun d => (⟨d.id, c.id, d.title, d.text, c.language⟩ : Document)),
        (fun (_ : Document) => true) r = true) ∧
      (∀ r ∈ data.map (fun d => (⟨d.id, c.id, d.title, d.text, c.language⟩ : Document)),
        ∀ t ∈ s.documents, (t.corpus_id, t.id) ≠ (r.corpus_id, r.id))) ↔
      ((data.map DocumentInfo.id).Pairwise (· ≠ ·) ∧
       ∀ info ∈ data, ∀ doc ∈ s.documents, (doc.corpus_id, doc.id) ≠ (c.id, info.id)) := by
    rw [pw, fr]
    simp
  unfold add_documents
  rw [hc]
  dsimp only
  by_cases h : ((data.map DocumentInfo.id).Pairwise (· ≠ ·) ∧
      ∀ info ∈ data, ∀ doc ∈ s.documents, (doc.corpus_id, doc.id) ≠ (c.id, info.id))
  · rw [if_pos h]
    have hins := (insertRows_some_iff (fun (d : Document) => (d.corpus_id, d.id))
      (fun _ => true) (data.map (fun d => ⟨d.id, c.id, d.title, d.text, c.language⟩))
      s.documents
      (s.documents ++ data.map (fun d => ⟨d.id, c.id, d.title, d.text, c.language⟩))).2
      ⟨rfl, (cond.2 h).1, (cond.2 h).2.1, (cond.2 h).2.2⟩
    rw [hins]
  · rw [if_neg h]
    have hins := (insertRows_none_iff (fun (d : Document) => (d.corpus_id, d.id))
      (fun _ => true) (data.map (fun d => ⟨d.id, c.id, d.title, d.text, c.language⟩))
      s.documents).2 (fun hcond => h (cond.1 hcond))
    rw [hins]

/-- `add_queries` on a resolvable `(corpus, dataset)` pair: succeeds
(appending the whole batch, all rows stamped with the one resolved dataset)
exactly when the batch has no internal duplicate id and no id already
present in the dataset. -/
theorem add_queries_spec (s : Store) (cn dn : String) (data : List QueryInfo) (d : Dataset)
    (hd : findDataset s cn dn = some d) :
    add_queries s cn dn data =
      if ((data.map QueryInfo.id).Pairwise (· ≠ ·) ∧
          ∀ info ∈ data, ∀ q ∈ s.queries, (q.dataset_id, q.id) ≠ (d.id, info.id))
      then .ok { s with queries :=
        s.queries ++ data.map (fun q => ⟨q.id, d.id, q.text, q.description⟩) }
      else .error .conflict := by
  have pw : (data.map (fun q => (⟨q.id, d.id, q.text, q.description⟩ : QueryRow))).Pairwise
        (fun a b => (a.dataset_id, a.id) ≠ (b.dataset_id, b.id)) ↔
      (data.map QueryInfo.id).Pairwise (· ≠ ·) := by
    rw [List.pairwise_map, List.pairwise_map]
    refine List.Pairwise.iff (fun a b => ?_)
    constructor
    · intro hne heq
      exact hne (by simp [heq])
    · intro hne heq
      have : a.id = b.id := by simpa using heq
      exact hne this
  have fr : (∀ r ∈ data.map (fun q => (⟨q.id, d.id, q.text, q.description⟩ : QueryRow)),
        ∀ t ∈ s.queries, (t.dataset_id, t.id) ≠ (r.dataset_id, r.id)) ↔
      (∀ info ∈ data, ∀ q ∈ s.queries, (q.dataset_id, q.id) ≠ (d.id, info.id)) := by
    constructor
    · intro h info hinfo q hq
      exact h _ (List.mem_map_of_mem _ hinfo) q hq
    · intro h r hr t ht
      rcases List.mem_map.1 hr with ⟨info, hinfo, rfl⟩
      exact h info hinfo t ht
  have cond : ((data.map (fun q => (⟨q.id, d.id, q.text, q.description⟩ : QueryRow))).Pairwise
        (fun a b => (a.dataset_id, a.id) ≠ (b.dataset_id, b.id)) ∧
      (∀ r ∈ data.map (fun q => (⟨q.id, d.id, q.text, q.description⟩ : QueryRow)),
        (fun (_ : QueryRow) => true) r = true) ∧
      (∀ r ∈ data.map (fun q => (⟨q.id, d.id, q.text, q.description⟩ : QueryRow)),
        ∀ t ∈ s.queries, (t.dataset_id, t.id) ≠ (r.dataset_id, r.id))) ↔
      ((data.map QueryInfo.id).Pairwise (· ≠ ·) ∧
       ∀ info ∈ data, ∀ q ∈ s.queries, (q.dataset_id, q.id) ≠ (d.id, info.id)) := by
    rw [pw, fr]
    simp
  unfold add_queries
  rw [hd]
  dsimp only
  by_cases h : ((data.map QueryInfo.id).Pairwise (· ≠ ·) ∧
      ∀ info ∈ data, ∀ q ∈ s.queries, (q.dataset_id, q.id) ≠ (d.id, info.id))
  · rw [if_pos h]
    have hins := (insertRows_some_iff (fun (q : QueryRow) => (q.dataset_id, q.id))
      (fun _ => true) (data.map (fun q => ⟨q.id, d.id, q.text, q.description⟩))
      s.queries
      (s.queries ++ data.map (fun q => ⟨q.id, d.id, q.text, q.description⟩))).2
      ⟨rfl, (cond.2 h).1, (cond.2 h).2.1, (cond.2 h).2.2⟩
    rw [hins]
  · rw [if_neg h]
    have hins := (insertRows_none_iff (fun (q : QueryRow) => (q.dataset_id, q.id))
      (fun _ => true) (data.map (fun q => ⟨q.id, d.id, q.text, q.description⟩))
      s.queries).2 (fun hcond => h (cond.1 hcond))
    rw [hins]

/-- `add_qrels` on a resolvable `(corpus, dataset)` pair: succeeds
(appending the whole batch, all rows stamped with the one resolved
dataset's id and corpus) exactly when every record references an existing
query of the dataset and an existing document of the corpus, the batch has
no internal duplicate `(query, document)` pair, and no such pair already
exists in the dataset. -/
theorem add_qrels_spec (s : Store) (cn dn : String) (data : List QRelInfo) (d : Dataset)
    (hd : findDataset s cn dn = some d) :
    add_qrels s cn dn data =
      if ((data.map (fun r => (r.query_id, r.document_id))).Pairwise (· ≠ ·) ∧
          (∀ info ∈ data,
            (∃ q ∈ s.queries, q.dataset_id = d.id ∧ q.id = info.query_id) ∧
            ∃ doc ∈ s.documents, doc.corpus_id = d.corpus_id ∧ doc.id = info.document_id) ∧
          ∀ info ∈ data, ∀ r ∈ s.qrels,
            (r.dataset_id, r.query_id, r.document_id) ≠ (d.id, info.query_id, info.document_id))
      then .ok { s with qrels :=
        s.qrels ++ data.map (fun r => ⟨r.query_id, r.document_id, d.corpus_id, d.id, r.relevance⟩) }
      else .error .conflict := by
  have pw : (data.map (fun r =>
        (⟨r.query_id, r.document_id, d.corpus_id, d.id, r.relevance⟩ : QRelRow))).Pairwise
        (fun a b => (a.dataset_id, a.query_id, a.document_id) ≠ (b.dataset_id, b.query_id, b.document_id)) ↔
      (data.map (fun r => (r.query_id, r.document_id))).Pairwise (· ≠ ·) := by
    rw [List.pairwise_map, List.pairwise_map]
    refine List.Pairwise.iff (fun a b => ?_)
    simp [Prod.ext_iff]
  have fk : (∀ r ∈ data.map (fun r =>
        (⟨r.query_id, r.document_id, d.corpus_id, d.id, r.relevance⟩ : QRelRow)),
        qrelFkOk s r = true) ↔
      (∀ info ∈ data,
        (∃ q ∈ s.queries, q.dataset_id = d.id ∧ q.id = info.query_id) ∧
        ∃ doc ∈ s.documents, doc.corpus_id = d.corpus_id ∧ doc.id = info.document_id) := by
    constructor
    · intro h info hinfo
      have := h _ (List.mem_map_of_mem _ hinfo)
      simpa [qrelFkOk, List.any_eq_true, Bool.and_eq_true, beq_iff_eq, and_comm] using this
    · intro h r hr
      rcases List.mem_map.1 hr with ⟨info, hinfo, rfl⟩
      have := h info hinfo
      simpa [qrelFkOk, List.any_eq_true, Bool.and_eq_true, beq_iff_eq, and_comm] using this
  have fr : (∀ r ∈ data.map (fun r =>
        (⟨r.query_id, r.document_id, d.corpus_id, d.id, r.relevance⟩ : QRelRow)),
        ∀ t ∈ s.qrels, (t.dataset_id, t.query_id, t.document_id) ≠ (r.dataset_id, r.query_id, r.document_id)) ↔
      (∀ info ∈ data, ∀ r ∈ s.qrels,
        (r.dataset_id, r.query_id, r.document_id) ≠ (d.id, info.query_id, info.document_id)) := by
    constructor
    · intro h info hinfo r hr
      exact h _ (List.mem_map_of_mem _ hinfo) r hr
    · intro h r hr t ht
      rcases List.mem_map.1 hr with ⟨info, hinfo, rfl⟩
      exact h info hinfo t ht
  have cond : ((data.map (fun r =>
        (⟨r.query_id, r.document_id, d.corpus_id, d.id, r.relevance⟩ : QRelRow))).Pairwise
        (fun a b => (a.dataset_id, a.query_id, a.document_id) ≠ (b.dataset_id, b.query_id, b.document_id)) ∧
      (∀ r ∈ data.map (fun r =>
        (⟨r.query_id, r.document_id, d.corpus_id, d.id, r.relevance⟩ : QRelRow)),
        qrelFkOk s r = true) ∧
      (∀ r ∈ data.map (fun r =>
        (⟨r.query_id, r.document_id, d.corpus_id, d.id, r.relevance⟩ : QRelRow)),
        ∀ t ∈ s.qrels, (t.dataset_id, t.query_id, t.document_id) ≠ (r.dataset_id, r.query_id, r.document_id))) ↔
      ((data.map (fun r => (r.query_id, r.document_id))).Pairwise (· ≠ ·) ∧
       (∀ info ∈ data,
         (∃ q ∈ s.queries, q.dataset_id = d.id ∧ q.id = info.query_id) ∧
         ∃ doc ∈ s.documents, doc.corpus_id = d.corpus_id ∧ doc.id = info.document_id) ∧
       ∀ info ∈ data, ∀ r ∈ s.qrels,
         (r.dataset_id, r.query_id, r.document_id) ≠ (d.id, info.query_id, info.document_id)) := by
    rw [pw, fk, fr]
  unfold add_qrels
  rw [hd]
  dsimp only
  by_cases h : ((data.map (fun r => (r.query_id, r.document_id))).Pairwise (· ≠ ·) ∧
      (∀ info ∈ data,
        (∃ q ∈ s.queries, q.dataset_id = d.id ∧ q.id = info.query_id) ∧
        ∃ doc ∈ s.documents, doc.corpus_id = d.corpus_id ∧ doc.id = info.document_id) ∧
      ∀ info ∈ data, ∀ r ∈ s.qrels,
        (r.dataset_id, r.query_id, r.document_id) ≠ (d.id, info.query_id, info.document_id))
  · rw [if_pos h]
    have hins := (insertRows_some_iff
      (fun (r : QRelRow) => (r.dataset_id, r.query_id, r.document_id)) (qrelFkOk s)
      (data.map (fun r => ⟨r.query_id, r.document_id, d.corpus_id, d.id, r.relevance⟩))
      s.qrels
      (s.qrels ++ data.map (fun r => ⟨r.query_id, r.document_id, d.corpus_id, d.id, r.relevance⟩))).2
      ⟨rfl, (cond.2 h).1, (cond.2 h).2.1, (cond.2 h).2.2⟩
    rw [hins]
  · rw [if_neg h]
    have hins := (insertRows_none_iff
      (fun (r : QRelRow) => (r.dataset_id, r.query_id, r.document_id)) (qrelFkOk s)
      (data.map (fun r => ⟨r.query_id, r.document_id, d.corpus_id, d.id, r.relevance⟩))
      s.qrels).2 (fun hcond => h (cond.1 hcond))
    rw [hins]

/-- A small concrete well-formed store used to instantiate theorems. -/
def sampleStore : Store where
  languages := ["english"]
  corpora := [⟨0, "c", "english"⟩]
  datasets := [⟨0, "ds", 0, 2⟩]
  documents := [⟨"d1", 0, none, "the quick brown fox", "english"⟩]
  queries := [⟨"q1", 0, "fox", none⟩]
  qrels := [⟨"q1", "d1", 0, 0, 3⟩]
  nextCorpusId := 1
  nextDatasetId := 1

/-- **C1**: every bulk insert (`add_documents`, `add_queries`, `add_qrels`)
on a batch with at least one invalid record — an unresolvable parent corpus
or dataset, a duplicate key within the batch or against the parent scope,
or (for QRels) a reference to a nonexistent document of the corpus or query
of the dataset — returns `Conflict` and leaves the store unchanged, while a
valid batch persists every record, all rows stamped from the single parent
lookup (the same `c.id`/`c.language`, resp. `d.id`/`d.corpus_id`, for the
whole batch). -/
theorem C1_batch_insert_atomic (s : Store) (cn dn : String)
    (docs : List DocumentInfo) (qs : List QueryInfo) (rs : List QRelInfo) :
    ((findCorpus s cn = none → runOp s (.addDocuments cn docs) = (s, some .conflict)) ∧
     (∀ c, findCorpus s cn = some c →
       ¬((docs.map DocumentInfo.id).Pairwise (· ≠ ·) ∧
         ∀ info ∈ docs, ∀ doc ∈ s.documents, (doc.corpus_id, doc.id) ≠ (c.id, info.id)) →
       runOp s (.addDocuments cn docs) = (s, some .conflict)) ∧
     (∀ c, findCorpus s cn = some c →
       ((docs.map DocumentInfo.id).Pairwise (· ≠ ·) ∧
        ∀ info ∈ docs, ∀ doc ∈ s.documents, (doc.corpus_id, doc.id) ≠ (c.id, info.id)) →
       runOp s (.addDocuments cn docs) =
         ({ s with documents := (s.documents ++
            docs.map (fun x => ⟨x.id, c.id, x.title, x.text, c.language⟩)) }, none))) ∧
    ((findDataset s cn dn = none → runOp s (.addQueries cn dn qs) = (s, some .conflict)) ∧
     (∀ d, findDataset s cn dn = some d →
       ¬((qs.map QueryInfo.id).Pairwise (· ≠ ·) ∧
         ∀ info ∈ qs, ∀ q ∈ s.queries, (q.dataset_id, q.id) ≠ (d.id, info.id)) →
       runOp s (.addQueries cn dn qs) = (s, some .conflict)) ∧
     (∀ d, findDataset s cn dn = some d →
       ((qs.map QueryInfo.id).Pairwise (· ≠ ·) ∧
        ∀ info ∈ qs, ∀ q ∈ s.queries, (q.dataset_id, q.id) ≠ (d.id, info.id)) →
       runOp s (.addQueries cn dn qs) =
         ({ s with queries := (s.queries ++
            qs.map (fun x => ⟨x.id, d.id, x.text, x.description⟩)) }, none))) ∧
    ((findDataset s cn dn = none → runOp s (.addQRels cn dn rs) = (s, some .conflict)) ∧
     (∀ d, findDataset s cn dn = some d →
       ¬((rs.map (fun r => (r.query_id, r.document_id))).Pairwise (· ≠ ·) ∧
         (∀ info ∈ rs,
           (∃ q ∈ s.queries, q.dataset_id = d.id ∧ q.id = info.query_id) ∧
           ∃ doc ∈ s.documents, doc.corpus_id = d.corpus_id ∧ doc.id = info.document_id) ∧
         ∀ info ∈ rs, ∀ r ∈ s.qrels,
           (r.dataset_id, r.query_id, r.document_id) ≠ (d.id, info.query_id, info.document_id)) →
       runOp s (.addQRels cn dn rs) = (s, some .conflict)) ∧
     (∀ d, findDataset s cn dn = some d →
       ((rs.map (fun r => (r.query_id, r.document_id))).Pairwise (· ≠ ·) ∧
        (∀ info ∈ rs,
          (∃ q ∈ s.queries, q.dataset_id = d.id ∧ q.id = info.query_id) ∧
          ∃ doc ∈ s.documents, doc.corpus_id = d.corpus_id ∧ doc.id = info.document_id) ∧
        ∀ info ∈ rs, ∀ r ∈ s.qrels,
          (r.dataset_id, r.query_id, r.document_id) ≠ (d.id, info.query_id, info.document_id)) →
       runOp s (.addQRels cn dn rs) =
         ({ s with qrels := (s.qrels ++
            rs.map (fun x => ⟨x.query_id, x.document_id, d.corpus_id, d.id, x.relevance⟩)) }, none))) := by
  refine ⟨⟨?_, ?_, ?_⟩, ⟨?_, ?_, ?_⟩, ⟨?_, ?_, ?_⟩⟩
  · intro h0
    simp [runOp, applyOp, add_documents, h0]
  · intro c hc h
    have hspec := add_documents_spec s cn docs c hc
    rw [if_neg h] at hspec
    simp [runOp, applyOp, hspec]
  · intro c hc h
    have hspec := add_documents_spec s cn docs c hc
    rw [if_pos h] at hspec
    simp [runOp, applyOp, hspec]
  · intro h0
    simp [runOp, applyOp, add_queries, h0]
  · intro d hd h
    have hspec := add_queries_spec s cn dn qs d hd
    rw [if_neg h] at hspec
    simp [runOp, applyOp, hspec]
  · intro d hd h
    have hspec := add_queries_spec s cn dn qs d hd
    rw [if_pos h] at hspec
    simp [runOp, applyOp, hspec]
  · intro h0
    simp [runOp, applyOp, add_qrels, h0]
  · intro d hd h
    have hspec := add_qrels_spec s cn dn rs d hd
    rw [if_neg h] at hspec
    simp [runOp, applyOp, hspec]
  · intro d hd h
    have hspec := add_qrels_spec s cn dn rs d hd
    rw [if_pos h] at hspec
    simp [runOp, applyOp, hspec]

/-- Witness for C1: a concrete valid batch insert into `sampleStore`
persists the whole batch with the corpus language snapshot. -/
theorem C1_batch_insert_atomic_witness :
    runOp sampleStore (.addDocuments "c" [⟨"d2", none, "the lazy dog"⟩]) =
      ({ sampleStore with documents := (sampleStore.documents ++
        [⟨"d2", 0, none, "the lazy dog", "english"⟩]) }, none) :=
  (C1_batch_insert_atomic sampleStore "c" "ds" [⟨"d2", none, "the lazy dog"⟩] [] []).1.2.2
    ⟨0, "c", "english"⟩ (by decide) (by decide)

/-- `find?` returns the unique matching element of a list. -/
theorem find?_unique {α : Type} (p : α → Bool) {l : List α} {a : α}
    (ha : a ∈ l) (hp : p a = true) (huniq : ∀ b ∈ l, p b = true → b = a) :
    l.find? p = some a := by
  induction l with
  | nil => cases ha
  | cons x xs ih =>
    by_cases hx : p x = true
    · have hxa : x = a := huniq x (List.mem_cons_self x xs) hx
      subst hxa
      simp [List.find?, hx]
    · have hxa : a ∈ xs := by
        rcases List.mem_cons.1 ha with rfl | h
        · exact absurd hp hx
        · exact h
      rw [List.find?_cons_of_neg _ (by simpa using hx)]
      exact ih hxa (fun b hb hpb => huniq b (List.mem_cons_of_mem x hb) hpb)

/-- Corpus names are unique on a well-formed store. -/
theorem wf_corpus_name_unique {s : Store} (hwf : s.wf) {c1 c2 : Corpus}
    (h1 : c1 ∈ s.corpora) (h2 : c2 ∈ s.corpora) (h : c1.name = c2.name) : c1 = c2 := by
  by_contra hne
  have hsym : Symmetric (fun (a b : Corpus) => a.id ≠ b.id ∧ a.name ≠ b.name) := by
    intro a b hab
    exact ⟨hab.1.symm, hab.2.symm⟩
  exact (hwf.1.forall hsym h1 h2 hne).2 h

/-- Corpus ids are unique on a well-formed store. -/
theorem wf_corpus_id_unique {s : Store} (hwf : s.wf) {c1 c2 : Corpus}
    (h1 : c1 ∈ s.corpora) (h2 : c2 ∈ s.corpora) (h : c1.id = c2.id) : c1 = c2 := by
  by_contra hne
  have hsym : Symmetric (fun (a b : Corpus) => a.id ≠ b.id ∧ a.name ≠ b.name) := by
    intro a b hab
    exact ⟨hab.1.symm, hab.2.symm⟩
  exact (hwf.1.forall hsym h1 h2 hne).1 h

/-- Dataset ids are unique on a well-formed store. -/
theorem wf_dataset_id_unique {s : Store} (hwf : s.wf) {d1 d2 : Dataset}
    (h1 : d1 ∈ s.datasets) (h2 : d2 ∈ s.datasets) (h : d1.id = d2.id) : d1 = d2 := by
  by_contra hne
  have hsym : Symmetric (fun (a b : Dataset) =>
      a.id ≠ b.id ∧ (a.corpus_id ≠ b.corpus_id ∨ a.name ≠ b.name)) := by
    intro a b hab
    exact ⟨hab.1.symm, hab.2.imp Ne.symm Ne.symm⟩
  exact (hwf.2.1.forall hsym h1 h2 hne).1 h

/-- **C3**: removing a corpus that still owns at least one dataset fails
with `Conflict` and leaves the store (its corpus, datasets and documents)
unchanged; a corpus owning zero datasets is removed, deleting exactly its
documents and the corpus row itself. -/
theorem C3_remove_corpus_guard (s : Store) (cn : String) (c : Corpus)
    (hwf : s.wf) (hc : findCorpus s cn = some c) :
    ((s.datasets.filter (fun d => d.corpus_id == c.id)).length > 0 →
      runOp s (.removeCorpus cn) = (s, some .conflict)) ∧
    (s.datasets.filter (fun d => d.corpus_id == c.id) = [] →
      runOp s (.removeCorpus cn) =
        ({ s with documents := s.documents.filter (fun d => !(d.corpus_id == c.id)),
                  corpora := s.corpora.filter (fun c2 => !(c2.id == c.id)) }, none)) := by
  constructor
  · intro hlen
    have hrc : remove_corpus s cn = .error .conflict := by
      unfold remove_corpus
      rw [hc]
      dsimp only
      rw [if_pos hlen]
    simp [runOp, applyOp, hrc]
  · intro hfil
    have hlen : ¬((s.datasets.filter (fun d => d.corpus_id == c.id)).length > 0) := by
      rw [hfil]
      simp
    have hq : (s.qrels.any (fun r => r.corpus_id == c.id)) = false := by
      rw [List.any_eq_false]
      intro r hr
      simp only [beq_iff_eq]
      intro hrc
      rcases hwf.2.2.2.2.2.2.2.2 r hr with ⟨d, hd, -, hcorp⟩
      have : d ∈ s.datasets.filter (fun d => d.corpus_id == c.id) := by
        rw [List.mem_filter]
        exact ⟨hd, by simp [hcorp, hrc]⟩
      rw [hfil] at this
      cases this
    have hrc : remove_corpus s cn =
        .ok { s with documents := s.documents.filter (fun d => !(d.corpus_id == c.id)),
                     corpora := s.corpora.filter (fun c2 => !(c2.id == c.id)) } := by
      unfold remove_corpus
      rw [hc]
      dsimp only
      rw [if_neg hlen, hq]
      simp
    simp [runOp, applyOp, hrc]

/-- Witness for C3: `sampleStore`'s corpus owns a dataset, so removing it
is rejected with `Conflict` and the store is unchanged. -/
theorem C3_remove_corpus_guard_witness :
    runOp sampleStore (.removeCorpus "c") = (sampleStore, some .conflict) :=
  (C3_remove_corpus_guard sampleStore "c" ⟨0, "c", "english"⟩ (by decide) (by decide)).1
    (by decide)

/-- **C4**: removing an existing dataset deletes exactly its QRels, its
queries and the dataset row; afterwards zero queries and zero QRels remain
for that dataset, every query/QRel of any other dataset survives, and the
corpora and documents tables are untouched. -/
theorem C4_remove_dataset_cascade (s : Store) (cn dn : String) (d : Dataset)
    (hd : findDataset s cn dn = some d) :
    ∃ s2, runOp s (.removeDataset cn dn) = (s2, none) ∧
      s2.qrels = s.qrels.filter (fun r => !(r.dataset_id == d.id)) ∧
      s2.queries = s.queries.filter (fun q => !(q.dataset_id == d.id)) ∧
      s2.datasets = s.datasets.filter (fun d2 => !(d2.id == d.id)) ∧
      s2.documents = s.documents ∧
      s2.corpora = s.corpora ∧
      s2.queries.filter (fun q => q.dataset_id == d.id) = [] ∧
      s2.qrels.filter (fun r => r.dataset_id == d.id) = [] ∧
      (∀ q ∈ s.queries, q.dataset_id ≠ d.id → q ∈ s2.queries) ∧
      (∀ r ∈ s.qrels, r.dataset_id ≠ d.id → r ∈ s2.qrels) ∧
      (∀ d2 ∈ s.datasets, d2.id ≠ d.id → d2 ∈ s2.datasets) := by
  refine ⟨{ s with
      qrels := s.qrels.filter (fun r => !(r.dataset_id == d.id)),
      queries := s.queries.filter (fun q => !(q.dataset_id == d.id)),
      datasets := s.datasets.filter (fun d2 => !(d2.id == d.id)) }, ?_, rfl, rfl, rfl, rfl, rfl,
    ?_, ?_, ?_, ?_, ?_⟩
  · have hrd : remove_dataset s cn dn = .ok { s with
        qrels := s.qrels.filter (fun r => !(r.dataset_id == d.id)),
        queries := s.queries.filter (fun q => !(q.dataset_id == d.id)),
        datasets := s.datasets.filter (fun d2 => !(d2.id == d.id)) } := by
      unfold remove_dataset
      rw [hd]
    simp [runOp, applyOp, hrd]
  · rw [List.filter_filter]
    apply List.filter_eq_nil_iff.2
    intro q hq
    simp
  · rw [List.filter_filter]
    apply List.filter_eq_nil_iff.2
    intro r hr
    simp
  · intro q hq hne
    rw [List.mem_filter]
    exact ⟨hq, by simpa using hne⟩
  · intro r hr hne
    rw [List.mem_filter]
    exact ⟨hr, by simpa using hne⟩
  · intro d2 hd2 hne
    rw [List.mem_filter]
    exact ⟨hd2, by simpa using hne⟩

/-- Witness for C4: removing `sampleStore`'s dataset deletes its query and
QRel and keeps documents and corpora. -/
theorem C4_remove_dataset_cascade_witness :
    ∃ s2, runOp sampleStore (.removeDataset "c" "ds") = (s2, none) ∧
      s2.qrels = sampleStore.qrels.filter (fun r => !(r.dataset_id == 0)) ∧
      s2.queries = sampleStore.queries.filter (fun q => !(q.dataset_id == 0)) ∧
      s2.datasets = sampleStore.datasets.filter (fun d2 => !(d2.id == 0)) ∧
      s2.documents = sampleStore.documents ∧
      s2.corpora = sampleStore.corpora ∧
      s2.queries.filter (fun q => q.dataset_id == 0) = [] ∧
      s2.qrels.filter (fun r => r.dataset_id == 0) = [] ∧
      (∀ q ∈ sampleStore.queries, q.dataset_id ≠ 0 → q ∈ s2.queries) ∧
      (∀ r ∈ sampleStore.qrels, r.dataset_id ≠ 0 → r ∈ s2.qrels) ∧
      (∀ d2 ∈ sampleStore.datasets, d2.id ≠ 0 → d2 ∈ s2.datasets) :=
  C4_remove_dataset_cascade sampleStore "c" "ds" ⟨0, "ds", 0, 2⟩ (by decide)

/-- On a well-formed store, a corpus without datasets has no QRels either
(every QRel's corpus is its dataset's corpus). -/
theorem no_corpus_qrels_of_no_datasets {s : Store} (hwf : s.wf) {c : Corpus}
    (hfil : s.datasets.filter (fun d => d.corpus_id == c.id) = []) :
    (s.qrels.any (fun r => r.corpus_id == c.id)) = false := by
  rw [List.any_eq_false]
  intro r hr
  simp only [beq_iff_eq]
  intro hrc
  rcases hwf.2.2.2.2.2.2.2.2 r hr with ⟨d, hd, -, hcorp⟩
  have hmem : d ∈ s.datasets.filter (fun d => d.corpus_id == c.id) := by
    rw [List.mem_filter]
    exact ⟨hd, by simp [hcorp, hrc]⟩
  rw [hfil] at hmem
  cases hmem

/-- A second concrete well-formed store whose corpus `empty` owns a
document but no dataset. -/
def sample2 : Store where
  languages := ["english"]
  corpora := [⟨0, "c", "english"⟩, ⟨1, "empty", "english"⟩]
  datasets := [⟨0, "ds", 0, 2⟩]
  documents := [⟨"d1", 0, none, "the quick brown fox", "english"⟩,
    ⟨"d9", 1, none, "orphan text", "english"⟩]
  queries := [⟨"q1", 0, "fox", none⟩]
  qrels := [⟨"q1", "d1", 0, 0, 3⟩]
  nextCorpusId := 2
  nextDatasetId := 1

/-- **C10**: the corpus listing only returns corpora owning at least one
dataset: a dataset-free corpus is absent from `get_corpora`'s result even
though it is present in the store and is still resolved by other
operations (here: `remove_corpus` succeeds on it). -/
theorem C10_corpora_listing_hides_dataset_free (s : Store) (est : Nat → Nat) (c : Corpus)
    (hwf : s.wf) (hc : c ∈ s.corpora)
    (hnod : s.datasets.filter (fun d => d.corpus_id == c.id) = []) :
    c.name ∉ (get_corpora s est).map CorpusOut.name ∧
    ∃ s2, remove_corpus s c.name = .ok s2 := by
  constructor
  · intro hmem
    rcases List.mem_map.1 hmem with ⟨out, hout, hname⟩
    rcases List.mem_filterMap.1 hout with ⟨c2, hc2, hf⟩
    dsimp only at hf
    by_cases hn : ((s.datasets.filter (fun d => d.corpus_id == c2.id)).length == 0) = true
    · rw [if_pos hn] at hf
      cases hf
    · rw [if_neg hn] at hf
      have hout2 : out.name = c2.name := by
        cases hf
        rfl
      have hcc : c2 = c :=
        wf_corpus_name_unique hwf hc2 hc (by rw [← hout2, hname])
      subst hcc
      rw [hnod] at hn
      simp at hn
  · have hfind : findCorpus s c.name = some c :=
      find?_unique _ hc (by simp)
        (fun b hb hpb => wf_corpus_name_unique hwf hb hc (by simpa using hpb))
    have hlen : ¬((s.datasets.filter (fun d => d.corpus_id == c.id)).length > 0) := by
      rw [hnod]
      simp
    refine ⟨{ s with documents := s.documents.filter (fun d => !(d.corpus_id == c.id)),
                     corpora := s.corpora.filter (fun c2 => !(c2.id == c.id)) }, ?_⟩
    unfold remove_corpus
    rw [hfind]
    dsimp only
    rw [if_neg hlen, no_corpus_qrels_of_no_datasets hwf hnod]
    simp

/-- Witness for C10: in `sample2`, the dataset-free corpus `empty` is
hidden from the corpus listing while removing it succeeds. -/
theorem C10_corpora_listing_hides_dataset_free_witness :
    "empty" ∉ (get_corpora sample2 (fun _ => 0)).map CorpusOut.name ∧
    ∃ s2, remove_corpus sample2 "empty" = .ok s2 :=
  C10_corpora_listing_hides_dataset_free sample2 (fun _ => 0) ⟨1, "empty", "english"⟩
    (by decide) (by decide) (by decide)

/-- **C7** (failing input): in `sample2` the document `d9` exists in corpus
`empty`, yet `get_document` answers `NotFound`, because its SQL inner-joins
the corpus's datasets and `empty` owns none — contradicting the claim that
`NotFound` occurs exactly when the document is absent. -/
theorem C7_get_document_notfound_on_dataset_free_corpus :
    get_document sample2 "empty" "d9" = .error .notFound ∧
    (⟨"d9", 1, none, "orphan text", "english"⟩ : Document) ∈ sample2.documents := by
  constructor
  · rfl
  · decide

/-- **C8**: after any successful mutating operation, every document in the
store is either exactly a document that was already stored (its `language`
field included — no operation rewrites it) or was created by this very
`add_documents` call with its language copied from the single corpus
lookup performed at that instant. -/
theorem C8_document_language_snapshot (s : Store) (op : Op) (s2 : Store)
    (h : applyOp s op = .ok s2) :
    ∀ doc ∈ s2.documents, doc ∈ s.documents ∨
      ∃ cn data, op = .addDocuments cn data ∧
        ∃ c, findCorpus s cn = some c ∧ doc.corpus_id = c.id ∧ doc.language = c.language := by
  intro doc hdoc
  cases op with
  | createCorpus data =>
    left
    replace h : create_corpus s data = .ok s2 := h
    unfold create_corpus at h
    split at h
    · cases h
    · simp only [Except.ok.injEq] at h
      subst h
      exact hdoc
  | createDataset data =>
    left
    replace h : create_dataset s data = .ok s2 := h
    unfold create_dataset at h
    cases hfc : findCorpus s data.corpus_name with
    | none =>
      rw [hfc] at h
      cases h
    | some c =>
      rw [hfc] at h
      dsimp only at h
      split at h
      · cases h
      · simp only [Except.ok.injEq] at h
        subst h
        exact hdoc
  | addDocuments cn data =>
    replace h : add_documents s cn data = .ok s2 := h
    unfold add_documents at h
    cases hfc : findCorpus s cn with
    | none =>
      rw [hfc] at h
      cases h
    | some c =>
      rw [hfc] at h
      dsimp only at h
      cases hins : insertRows (fun (d : Document) => (d.corpus_id, d.id)) (fun _ => true)
          s.documents (data.map (fun d => ⟨d.id, c.id, d.title, d.text, c.language⟩)) with
      | none =>
        rw [hins] at h
        cases h
      | some tbl =>
        rw [hins] at h
        simp only [Except.ok.injEq] at h
        subst h
        have htbl := ((insertRows_some_iff _ _ _ _ _).1 hins).1
        rw [htbl] at hdoc
        rcases List.mem_append.1 hdoc with hold | hnew
        · exact Or.inl hold
        · rcases List.mem_map.1 hnew with ⟨info, -, rfl⟩
          exact Or.inr ⟨cn, data, rfl, c, hfc, rfl, rfl⟩
  | addQueries cn dn data =>
    left
    replace h : add_queries s cn dn data = .ok s2 := h
    unfold add_queries at h
    cases hfd : findDataset s cn dn with
    | none =>
      rw [hfd] at h
      cases h
    | some d =>
      rw [hfd] at h
      dsimp only at h
      cases hins : insertRows (fun (q : QueryRow) => (q.dataset_id, q.id)) (fun _ => true)
          s.queries (data.map (fun q => ⟨q.id, d.id, q.text, q.description⟩)) with
      | none =>
        rw [hins] at h
        cases h
      | some tbl =>
        rw [hins] at h
        simp only [Except.ok.injEq] at h
        subst h
        exact hdoc
  | addQRels cn dn data =>
    left
    replace h : add_qrels s cn dn data = .ok s2 := h
    unfold add_qrels at h
    cases hfd : findDataset s cn dn with
    | none =>
      rw [hfd] at h
      cases h
    | some d =>
      rw [hfd] at h
      dsimp only at h
      cases hins : insertRows (fun (r : QRelRow) => (r.dataset_id, r.query_id, r.document_id))
          (qrelFkOk s) s.qrels
          (data.map (fun r => ⟨r.query_id, r.document_id, d.corpus_id, d.id, r.relevance⟩)) with
      | none =>
        rw [hins] at h
        cases h
      | some tbl =>
        rw [hins] at h
        simp only [Except.ok.injEq] at h
        subst h
        exact hdoc
  | removeDataset cn dn =>
    left
    replace h : remove_dataset s cn dn = .ok s2 := h
    unfold remove_dataset at h
    cases hfd : findDataset s cn dn with
    | none =>
      rw [hfd] at h
      simp only [Except.ok.injEq] at h
      subst h
      exact hdoc
    | some d =>
      rw [hfd] at h
      simp only [Except.ok.injEq] at h
      subst h
      exact hdoc
  | removeCorpus cn =>
    left
    replace h : remove_corpus s cn = .ok s2 := h
    unfold remove_corpus at h
    cases hfc : findCorpus s cn with
    | none =>
      rw [hfc] at h
      cases h
    | some c =>
      rw [hfc] at h
      dsimp only at h
      split at h
      · cases h
      · split at h
        · cases h
        · simp only [Except.ok.injEq] at h
          subst h
          exact List.mem_of_mem_filter hdoc

/-- Witness for C8: the document inserted into `sampleStore` carries the
corpus's language snapshot. -/
theorem C8_document_language_snapshot_witness :
    (⟨"d2", 0, none, "snap", "english"⟩ : Document) ∈ sampleStore.documents ∨
      ∃ cn data, Op.addDocuments "c" [⟨"d2", none, "snap"⟩] = .addDocuments cn data ∧
        ∃ c, findCorpus sampleStore cn = some c ∧ (0 : Nat) = c.id ∧ "english" = c.language :=
  C8_document_language_snapshot sampleStore (.addDocuments "c" [⟨"d2", none, "snap"⟩])
    { sampleStore with documents := (sampleStore.documents ++
      [⟨"d2", 0, none, "snap", "english"⟩]) } rfl
    ⟨"d2", 0, none, "snap", "english"⟩ (by decide)

/-- A `filterMap` over a list with pairwise-distinct keys yields at most
one element when all contributing elements share the same key. -/
theorem filterMap_length_le_one {α β κ : Type} (key : α → κ) (f : α → Option β) :
    ∀ (l : List α), l.Pairwise (fun a b => key a ≠ key b) →
      (∀ a ∈ l, ∀ b ∈ l, (f a).isSome → (f b).isSome → key a = key b) →
      (l.filterMap f).length ≤ 1 := by
  intro l
  induction l with
  | nil =>
    intro _ _
    simp
  | cons x xs ih =>
    intro hpw hkey
    rcases List.pairwise_cons.1 hpw with ⟨hx, hpw2⟩
    cases hfx : f x with
    | none =>
      rw [List.filterMap_cons_none hfx]
      exact ih hpw2 (fun a ha b hb => hkey a (List.mem_cons_of_mem x ha)
        b (List.mem_cons_of_mem x hb))
    | some y =>
      rw [List.filterMap_cons_some hfx]
      have hrest : xs.filterMap f = [] := by
        rw [List.filterMap_eq_nil_iff]
        intro a ha
        cases hfa : f a with
        | none => rfl
        | some z =>
          exfalso
          apply hx a ha
          exact hkey x (List.mem_cons_self x xs) a (List.mem_cons_of_mem x ha)
            (by simp [hfx]) (by simp [hfa])
      rw [hrest]
      simp

/-- Any contributing document of the `get_document` result set has the
requested id and a corpus of the requested name. -/
theorem get_document_rows_contrib {s : Store} {cn did : String} {doc : Document}
    (hs : (match s.corpora.find? (fun c => c.id == doc.corpus_id && c.name == cn) with
      | none => none
      | some c =>
        if doc.id == did then
          let dsets := s.datasets.filter (fun d => d.corpus_id == c.id)
          if dsets.isEmpty then none
          else some (doc, (dsets.map (fun d =>
            (s.qrels.filter (fun r => r.document_id == doc.id
              && decide (r.relevance ≥ d.min_relevance))).length)).sum)
        else none : Option (Document × Nat)).isSome) :
    doc.id = did ∧ ∃ c ∈ s.corpora, c.id = doc.corpus_id ∧ c.name = cn := by
  dsimp only at hs
  cases hfc : s.corpora.find? (fun c => c.id == doc.corpus_id && c.name == cn) with
  | none =>
    rw [hfc] at hs
    cases hs
  | some c =>
    rw [hfc] at hs
    dsimp only at hs
    by_cases hid : (doc.id == did) = true
    · refine ⟨by simpa using hid, c, List.mem_of_find?_eq_some hfc, ?_, ?_⟩
      · have := List.find?_some hfc
        simp only [Bool.and_eq_true, beq_iff_eq] at this
        exact this.1
      · have := List.find?_some hfc
        simp only [Bool.and_eq_true, beq_iff_eq] at this
        exact this.2
    · rw [if_neg hid] at hs
      cases hs

/-- On a well-formed store, `get_document` has at most one result row. -/
theorem get_document_rows_le_one {s : Store} (hwf : s.wf) (cn did : String) :
    (get_document_rows s cn did).length ≤ 1 := by
  unfold get_document_rows
  refine filterMap_length_le_one (fun (d : Document) => (d.corpus_id, d.id)) _ _
    (hwf.2.2.2.1.imp ?_) ?_
  · intro a b hab heq
    rw [Prod.mk.injEq] at heq
    rcases hab with h1 | h2
    · exact h1 heq.1
    · exact h2 heq.2
  intro a _ b _ hsa hsb
  rcases get_document_rows_contrib hsa with ⟨hida, ca, hca, hcaid, hcan⟩
  rcases get_document_rows_contrib hsb with ⟨hidb, cb, hcb, hcbid, hcbn⟩
  have hcc : ca = cb := wf_corpus_name_unique hwf hca hcb (by rw [hcan, hcbn])
  subst hcc
  rw [Prod.mk.injEq]
  exact ⟨by rw [← hcaid, ← hcbid], by rw [hida, hidb]⟩

/-- On a well-formed store every error of `get_document` is the translated
404 `NotFound`. -/
theorem get_document_error_notFound {s : Store} (hwf : s.wf) {cn did : String} {e : DBError}
    (h : get_document s cn did = .error e) : e = .notFound := by
  have hle := get_document_rows_le_one hwf cn did
  unfold get_document at h
  cases hrows : get_document_rows s cn did with
  | nil =>
    rw [hrows] at h
    cases h
    rfl
  | cons r rest =>
    cases rest with
    | nil =>
      rw [hrows] at h
      cases h
    | cons r2 rest2 =>
      rw [hrows] at hle
      simp at hle

/-- Any contributing query of the `get_query` result set has the requested
id and a dataset/corpus chain of the requested names. -/
theorem get_query_rows_contrib {s : Store} {cn dn qid : String} {q : QueryRow}
    (hs : (if q.id == qid then
        match s.datasets.find? (fun d => d.id == q.dataset_id && d.name == dn) with
        | none => none
        | some d =>
          match s.corpora.find? (fun c => c.id == d.corpus_id && c.name == cn) with
          | none => none
          | some _ => some (q, (s.qrels.filter (fun r =>
              r.query_id == q.id && decide (r.relevance ≥ d.min_relevance))).length)
      else none : Option (QueryRow × Nat)).isSome) :
    q.id = qid ∧ ∃ d ∈ s.datasets, d.id = q.dataset_id ∧ d.name = dn ∧
      ∃ c ∈ s.corpora, c.id = d.corpus_id ∧ c.name = cn := by
  by_cases hid : (q.id == qid) = true
  · rw [if_pos hid] at hs
    cases hfd : s.datasets.find? (fun d => d.id == q.dataset_id && d.name == dn) with
    | none =>
      rw [hfd] at hs
      cases hs
    | some d =>
      rw [hfd] at hs
      dsimp only at hs
      cases hfc : s.corpora.find? (fun c => c.id == d.corpus_id && c.name == cn) with
      | none =>
        rw [hfc] at hs
        cases hs
      | some c =>
        have hd := List.find?_some hfd
        have hc := List.find?_some hfc
        simp only [Bool.and_eq_true, beq_iff_eq] at hd hc
        exact ⟨by simpa using hid, d, List.mem_of_find?_eq_some hfd, hd.1, hd.2,
          c, List.mem_of_find?_eq_some hfc, hc.1, hc.2⟩
  · rw [if_neg hid] at hs
    cases hs

/-- On a well-formed store, `get_query` has at most one result row. -/
theorem get_query_rows_le_one {s : Store} (hwf : s.wf) (cn dn qid : String) :
    (get_query_rows s cn dn qid).length ≤ 1 := by
  unfold get_query_rows
  refine filterMap_length_le_one (fun (q : QueryRow) => (q.dataset_id, q.id)) _ _
    (hwf.2.2.2.2.2.1.imp ?_) ?_
  · intro a b hab heq
    rw [Prod.mk.injEq] at heq
    rcases hab with h1 | h2
    · exact h1 heq.1
    · exact h2 heq.2
  intro a _ b _ hsa hsb
  rcases get_query_rows_contrib hsa with ⟨hida, da, hda, hdaid, hdan, ca, hca, hcaid, hcan⟩
  rcases get_query_rows_contrib hsb with ⟨hidb, db, hdb, hdbid, hdbn, cb, hcb, hcbid, hcbn⟩
  have hcc : ca = cb := wf_corpus_name_unique hwf hca hcb (by rw [hcan, hcbn])
  subst hcc
  have hdd : da = db := by
    by_contra hne
    have hsym : Symmetric (fun (a b : Dataset) =>
        a.id ≠ b.id ∧ (a.corpus_id ≠ b.corpus_id ∨ a.name ≠ b.name)) := by
      intro a b hab
      exact ⟨hab.1.symm, hab.2.imp Ne.symm Ne.symm⟩
    rcases (hwf.2.1.forall hsym hda hdb hne).2 with hcor | hnam
    · exact hcor (by rw [← hcaid, ← hcbid])
    · exact hnam (by rw [hdan, hdbn])
  subst hdd
  rw [Prod.mk.injEq]
  exact ⟨by rw [← hdaid, ← hdbid], by rw [hida, hidb]⟩

/-- On a well-formed store every error of `get_query` is the translated
404 `NotFound`. -/
theorem get_query_error_notFound {s : Store} (hwf : s.wf) {cn dn qid : String} {e : DBError}
    (h : get_query s cn dn qid = .error e) : e = .notFound := by
  have hle := get_query_rows_le_one hwf cn dn qid
  unfold get_query at h
  cases hrows : get_query_rows s cn dn qid with
  | nil =>
    rw [hrows] at h
    cases h
    rfl
  | cons r rest =>
    cases rest with
    | nil =>
      rw [hrows] at h
      cases h
    | cons r2 rest2 =>
      rw [hrows] at hle
      simp at hle

/-- **C9** (amended): on a well-formed store every error surfaced by the
core's operations is one of the typed errors `Conflict` / `NotFound` /
`InvalidArgument`, with exactly two untranslated exceptions:
`remove_corpus` on a nonexistent corpus name surfaces the engine's
`NoResultFound`, and `search_documents` with an uninstalled language
configuration surfaces the engine's `ProgrammingError`; `remove_dataset`
never errors. -/
theorem C9_typed_errors (s : Store) (hwf : s.wf) (ci : CorpusInfo) (di : DatasetInfo)
    (cn dn did qid lang : String) (docs : List DocumentInfo) (qs : List QueryInfo)
    (rs : List QRelInfo) (tsM : Document → Bool) (rank : Document → Int)
    (hl : String → String) (cf : Option (List String)) (nr : Option Nat) (off : Nat) :
    (∀ e, create_corpus s ci = .error e → e.typed = true) ∧
    (∀ e, create_dataset s di = .error e → e.typed = true) ∧
    (∀ e, add_documents s cn docs = .error e → e.typed = true) ∧
    (∀ e, add_queries s cn dn qs = .error e → e.typed = true) ∧
    (∀ e, add_qrels s cn dn rs = .error e → e.typed = true) ∧
    (∃ s2, remove_dataset s cn dn = .ok s2) ∧
    (∀ e, remove_corpus s cn = .error e →
      e = .conflict ∨ (e = .noResultFound ∧ findCorpus s cn = none)) ∧
    (∀ e, get_document s cn did = .error e → e = .notFound) ∧
    (∀ e, get_query s cn dn qid = .error e → e = .notFound) ∧
    (∀ e, search_documents_checked s lang tsM rank hl cf nr off = .error e →
      e = .programmingError ∧ s.languages.contains lang = false) ∧
    (s.languages.contains lang = true →
      search_documents_checked s lang tsM rank hl cf nr off =
        .ok (search_documents s tsM rank hl cf nr off)) := by
  refine ⟨?_, ?_, ?_, ?_, ?_, ?_, ?_, ?_, ?_, ?_, ?_⟩
  · intro e h
    unfold create_corpus at h
    split at h
    · cases h
      rfl
    · cases h
  · intro e h
    unfold create_dataset at h
    cases hfc : findCorpus s di.corpus_name with
    | none =>
      rw [hfc] at h
      cases h
      rfl
    | some c =>
      rw [hfc] at h
      dsimp only at h
      split at h
      · cases h
        rfl
      · cases h
  · intro e h
    unfold add_documents at h
    cases hfc : findCorpus s cn with
    | none =>
      rw [hfc] at h
      cases h
      rfl
    | some c =>
      rw [hfc] at h
      dsimp only at h
      split at h
      · cases h
        rfl
      · cases h
  · intro e h
    unfold add_queries at h
    cases hfd : findDataset s cn dn with
    | none =>
      rw [hfd] at h
      cases h
      rfl
    | some d =>
      rw [hfd] at h
      dsimp only at h
      split at h
      · cases h
        rfl
      · cases h
  · intro e h
    unfold add_qrels at h
    cases hfd : findDataset s cn dn with
    | none =>
      rw [hfd] at h
      cases h
      rfl
    | some d =>
      rw [hfd] at h
      dsimp only at h
      split at h
      · cases h
        rfl
      · cases h
  · unfold remove_dataset
    cases hfd : findDataset s cn dn with
    | none => exact ⟨s, rfl⟩
    | some d => exact ⟨_, rfl⟩
  · intro e h
    unfold remove_corpus at h
    cases hfc : findCorpus s cn with
    | none =>
      rw [hfc] at h
      cases h
      exact Or.inr ⟨rfl, rfl⟩
    | some c =>
      rw [hfc] at h
      dsimp only at h
      split at h
      · cases h
        exact Or.inl rfl
      · split at h
        · cases h
          exact Or.inl rfl
        · cases h
  · intro e h
    exact get_document_error_notFound hwf h
  · intro e h
    exact get_query_error_notFound hwf h
  · intro e h
    unfold search_documents_checked at h
    split at h
    · cases h
    · cases h
      rename_i hcontains
      exact ⟨rfl, by simpa using hcontains⟩
  · intro hcontains
    unfold search_documents_checked
    rw [if_pos hcontains]

/-- Witness for C9: on `sampleStore`, removing the corpus `c` (which owns a
dataset) errors, and the error is the typed `Conflict`. -/
theorem C9_typed_errors_witness :
    DBError.conflict = .conflict ∨
      (DBError.conflict = .noResultFound ∧ findCorpus sampleStore "c" = none) :=
  (C9_typed_errors sampleStore (by decide) ⟨"c", "english"⟩ ⟨"ds", "c", 2⟩
    "c" "ds" "d1" "q1" "english" [] [] [] (fun _ => true) (fun _ => 0) (fun t => t)
    none none 0).2.2.2.2.2.2.1 .conflict rfl

/-- Counterexample for C9 as stated: `remove_corpus` on a nonexistent
corpus name surfaces the untranslated engine error `NoResultFound`, which
is none of the three typed errors. -/
theorem C9_remove_corpus_untyped_error :
    remove_corpus sample2 "nope" = .error .noResultFound ∧
    DBError.typed .noResultFound = false := by
  constructor
  · rfl
  · rfl

/-- An offset at or past the end of the result set yields an empty page. -/
theorem paginate_eq_nil_of_le {α : Type} (l : List α) (lim : Option Nat) (off : Nat)
    (h : l.length ≤ off) : paginate l lim off = [] := by
  cases lim with
  | none => simp [paginate, List.drop_eq_nil_of_le h]
  | some n => simp [paginate, List.drop_eq_nil_of_le h]

/-- Concatenating the pages obtained by stepping the offset by the limit
reproduces the whole result set. -/
theorem paginate_pages {α : Type} (L : Nat) :
    ∀ (N : Nat) (l : List α), l.length ≤ N * L →
      (List.range N).flatMap (fun k => paginate l (some L) (k * L)) = l := by
  intro N
  induction N with
  | zero =>
    intro l h
    have hnil : l = [] := List.eq_nil_of_length_eq_zero (Nat.le_zero.1 (by simpa using h))
    subst hnil
    simp
  | succ n ih =>
    intro l h
    rw [List.range_succ_eq_map, List.flatMap_cons, List.flatMap_map]
    have h1 : paginate l (some L) (0 * L) = l.take L := by
      simp [paginate]
    have h2 : ∀ k : Nat, paginate l (some L) (Nat.succ k * L) =
        paginate (l.drop L) (some L) (k * L) := by
      intro k
      simp only [paginate]
      rw [List.drop_drop]
      have hm : L + k * L = Nat.succ k * L := by
        rw [Nat.succ_mul, Nat.add_comm]
      rw [hm]
    rw [h1]
    simp only [h2]
    rw [Nat.succ_mul] at h
    rw [ih (l.drop L) (by simp only [List.length_drop]; omega)]
    exact List.take_append_drop L l

/-- A `flatMap` of mapped pieces is the map of the `flatMap`. -/
theorem flatMap_map_eq {γ α β : Type} (g : γ → List α) (f : α → β) :
    ∀ (l : List γ), l.flatMap (fun x => (g x).map f) = (l.flatMap g).map f := by
  intro l
  induction l with
  | nil => simp
  | cons x xs ih => simp [ih]

/-- A `flatMap` of filterMapped pieces is the filterMap of the `flatMap`. -/
theorem flatMap_filterMap_eq {γ α β : Type} (g : γ → List α) (f : α → Option β) :
    ∀ (l : List γ), l.flatMap (fun x => (g x).filterMap f) = (l.flatMap g).filterMap f := by
  intro l
  induction l with
  | nil => simp
  | cons x xs ih => simp [List.filterMap_append, ih]

theorem get_queries_items (s : Store) (cn : String) (dno : Option String)
    (mf : Option (String → Bool)) (nr : Option Nat) (off : Nat) :
    (get_queries s cn dno mf nr off).items =
      (paginate (get_queries_rows s cn dno mf) nr off).map (fun x =>
        ⟨x.1.id, cn, x.2.2, x.1.text, x.1.description, x.2.1⟩) := rfl

theorem get_queries_total (s : Store) (cn : String) (dno : Option String)
    (mf : Option (String → Bool)) (nr : Option Nat) (off : Nat) :
    (get_queries s cn dno mf nr off).total_num_items =
      (get_queries_rows s cn dno mf).length := rfl

theorem get_documents_items (s : Store) (cn : String) (nr : Option Nat) (off : Nat) :
    (get_documents s cn nr off).items =
      (paginate (get_documents_rows s cn) nr off).map (fun x =>
        ⟨x.1.id, cn, x.1.title, x.1.text, x.2⟩) := rfl

theorem get_documents_total_eq (s : Store) (cn : String) (nr : Option Nat) (off : Nat) :
    (get_documents s cn nr off).total_num_items = get_documents_total s cn := rfl

theorem get_qrels_items (s : Store) (cn : String) (dio dno qno : Option String)
    (nr : Option Nat) (off : Nat) :
    (get_qrels s cn dio dno qno nr off).items =
      (paginate (get_qrels_rows s cn dio dno qno) nr off).filterMap (hydrateQRel s) := rfl

theorem get_qrels_total (s : Store) (cn : String) (dio dno qno : Option String)
    (nr : Option Nat) (off : Nat) :
    (get_qrels s cn dio dno qno nr off).total_num_items =
      (get_qrels_rows s cn dio dno qno).length := rfl

theorem search_documents_items (s : Store) (tsMatch : Document → Bool)
    (rank : Document → Int) (headline : String → String) (cf : Option (List String))
    (nr : Option Nat) (off : Nat) :
    (search_documents s tsMatch rank headline cf nr off).items =
      (paginate (search_rows s tsMatch rank cf) nr off).map (fun r =>
        ⟨r.id, r.corpus_name, r.title, headline r.text, r.score⟩) := rfl

theorem search_documents_total (s : Store) (tsMatch : Document → Bool)
    (rank : Document → Int) (headline : String → String) (cf : Option (List String))
    (nr : Option Nat) (off : Nat) :
    (search_documents s tsMatch rank headline cf nr off).total_num_items =
      (search_rows s tsMatch rank cf).length := rfl

/-- `get_queries_rows` over an explicit enumeration `tbl` of the query
table.  The page query carries no ORDER BY and each page is a separate
statement, so the engine may observe the table's rows in a different order
per execution; `tbl` makes that per-statement enumeration explicit
(`get_queries_rows` is the special case `tbl = s.queries`). -/
def get_queries_rows_from (s : Store) (tbl : List QueryRow) (corpus_name : String)
    (dataset_name : Option String) (matchFn : Option (String → Bool)) :
    List (QueryRow × Nat × String) :=
  tbl.filterMap (fun q =>
    match s.datasets.find? (fun d => d.id == q.dataset_id) with
    | none => none
    | some d =>
      match s.corpora.find? (fun c => c.id == d.corpus_id) with
      | none => none
      | some c =>
        if c.name == corpus_name
            && (match dataset_name with | none => true | some dn => d.name == dn)
            && (match matchFn with | none => true | some f => f q.text) then
          some (q,
            (s.qrels.filter (fun r => r.query_id == q.id && r.dataset_id == d.id
              && decide (r.relevance ≥ d.min_relevance))).length,
            d.name)
        else none)

/-- One page statement of `get_queries` under an explicit row enumeration;
the total still comes from the separate, order-independent count query
over the store. -/
def get_queries_from (s : Store) (tbl : List QueryRow) (corpus_name : String)
    (dataset_name : Option String) (matchFn : Option (String → Bool))
    (num_results : Option Nat) (offset : Nat) : Paginated QueryOut :=
  { items := (paginate (get_queries_rows_from s tbl corpus_name dataset_name matchFn)
      num_results offset).map (fun x =>
        ⟨x.1.id, corpus_name, x.2.2, x.1.text, x.1.description, x.2.1⟩),
    offset := offset,
    total_num_items := (get_queries_rows s corpus_name dataset_name matchFn).length }

/-- `get_queries` is the fixed-enumeration special case. -/
theorem get_queries_from_table (s : Store) (cn : String) (dno : Option String)
    (mf : Option (String → Bool)) (nr : Option Nat) (off : Nat) :
    get_queries_from s s.queries cn dno mf nr off = get_queries s cn dno mf nr off := rfl

/-- `get_documents_rows` over an explicit enumeration of the documents
table (its page query has no ORDER BY either; see
`get_queries_rows_from`). -/
def get_documents_rows_from (s : Store) (tbl : List Document) (corpus_name : String) :
    List (Document × Nat) :=
  tbl.filterMap (fun doc =>
    match s.corpora.find? (fun c => c.id == doc.corpus_id) with
    | none => none
    | some c =>
      if c.name == corpus_name then
        let dsets := s.datasets.filter (fun d => d.corpus_id == c.id)
        if dsets.isEmpty then none
        else some (doc, (dsets.map (fun d =>
          (s.qrels.filter (fun r => r.document_id == doc.id && r.dataset_id == d.id
            && decide (r.relevance ≥ d.min_relevance))).length)).sum)
      else none)

/-- One page statement of `get_documents` under an explicit row
enumeration; the total comes from the separate count query. -/
def get_documents_from (s : Store) (tbl : List Document) (corpus_name : String)
    (num_results : Option Nat) (offset : Nat) : Paginated DocumentOut :=
  { items := (paginate (get_documents_rows_from s tbl corpus_name) num_results offset).map
      (fun x => ⟨x.1.id, corpus_name, x.1.title, x.1.text, x.2⟩),
    offset := offset,
    total_num_items := get_documents_total s corpus_name }

/-- `get_documents` is the fixed-enumeration special case. -/
theorem get_documents_from_table (s : Store) (cn : String) (nr : Option Nat) (off : Nat) :
    get_documents_from s s.documents cn nr off = get_documents s cn nr off := rfl

/-- `get_qrels_rows` from an explicit enumeration of the QRels table:
ORDER BY relevance DESC does not pin the relative order of equal-relevance
rows, so separate statements may disagree on tie order; a common
enumeration (together with the stable sort) fixes one legal per-statement
order. -/
def get_qrels_rows_from (s : Store) (tbl : List QRelRow) (corpus_name : String)
    (document_id dataset_name query_id : Option String) : List QRelRow :=
  let filtered := tbl.filterMap (fun r =>
    match s.datasets.find? (fun d => d.id == r.dataset_id) with
    | none => none
    | some d =>
      match s.corpora.find? (fun c => c.id == d.corpus_id) with
      | none => none
      | some c =>
        if c.name == corpus_name && decide (r.relevance ≥ d.min_relevance)
            && (match document_id with | none => true | some x => r.document_id == x)
            && (match dataset_name with | none => true | some x => d.name == x)
            && (match query_id with | none => true | some x => r.query_id == x) then
          some r
        else none)
  filtered.mergeSort (fun a b => decide (b.relevance ≤ a.relevance))

/-- One page statement of `get_qrels` under an explicit row enumeration;
the total comes from the separate count query. -/
def get_qrels_from (s : Store) (tbl : List QRelRow) (corpus_name : String)
    (document_id dataset_name query_id : Option String)
    (num_results : Option Nat) (offset : Nat) : Paginated QRelOut :=
  { items := (paginate (get_qrels_rows_from s tbl corpus_name document_id dataset_name query_id)
      num_results offset).filterMap (hydrateQRel s),
    offset := offset,
    total_num_items := (get_qrels_rows s corpus_name document_id dataset_name query_id).length }

/-- `get_qrels` is the fixed-enumeration special case. -/
theorem get_qrels_from_table (s : Store) (cn : String) (dio dno qno : Option String)
    (nr : Option Nat) (off : Nat) :
    get_qrels_from s s.qrels cn dio dno qno nr off = get_qrels s cn dio dno qno nr off := rfl

/-- `search_rows` from an explicit enumeration of the documents table (the
ORDER BY pins score and id, but not the relative order of hits equal on
both). -/
def search_rows_from (s : Store) (tbl : List Document) (tsMatch : Document → Bool)
    (rank : Document → Int) (corpus_filter : Option (List String)) : List SearchRow :=
  let matched := tbl.filterMap (fun doc =>
    match s.corpora.find? (fun c => c.id == doc.corpus_id) with
    | none => none
    | some c =>
      if tsMatch doc
          && (match corpus_filter with | none => true | some l => l.contains c.name) then
        some ⟨doc.id, doc.title, doc.text, c.name, rank doc⟩
      else none)
  matched.mergeSort searchLE

/-- One page statement of `search_documents` under an explicit row
enumeration; the total comes from the separate count query. -/
def search_documents_from (s : Store) (tbl : List Document) (tsMatch : Document → Bool)
    (rank : Document → Int) (headline : String → String)
    (corpus_filter : Option (List String)) (num_results : Option Nat) (offset : Nat) :
    Paginated DocumentSearchHit :=
  { items := (paginate (search_rows_from s tbl tsMatch rank corpus_filter)
      num_results offset).map (fun r =>
        ⟨r.id, r.corpus_name, r.title, headline r.text, r.score⟩),
    offset := offset,
    total_num_items := (search_rows s tsMatch rank corpus_filter).length }

/-- `search_documents` is the fixed-enumeration special case. -/
theorem search_documents_from_table (s : Store) (tsM : Document → Bool)
    (rank : Document → Int) (hl : String → String) (cf : Option (List String))
    (nr : Option Nat) (off : Nat) :
    search_documents_from s s.documents tsM rank hl cf nr off =
      search_documents s tsM rank hl cf nr off := rfl

theorem get_queries_from_items (s : Store) (tbl : List QueryRow) (cn : String)
    (dno : Option String) (mf : Option (String → Bool)) (nr : Option Nat) (off : Nat) :
    (get_queries_from s tbl cn dno mf nr off).items =
      (paginate (get_queries_rows_from s tbl cn dno mf) nr off).map (fun x =>
        ⟨x.1.id, cn, x.2.2, x.1.text, x.1.description, x.2.1⟩) := rfl

theorem get_documents_from_items (s : Store) (tbl : List Document) (cn : String)
    (nr : Option Nat) (off : Nat) :
    (get_documents_from s tbl cn nr off).items =
      (paginate (get_documents_rows_from s tbl cn) nr off).map (fun x =>
        ⟨x.1.id, cn, x.1.title, x.1.text, x.2⟩) := rfl

theorem get_qrels_from_items (s : Store) (tbl : List QRelRow) (cn : String)
    (dio dno qno : Option String) (nr : Option Nat) (off : Nat) :
    (get_qrels_from s tbl cn dio dno qno nr off).items =
      (paginate (get_qrels_rows_from s tbl cn dio dno qno) nr off).filterMap
        (hydrateQRel s) := rfl

theorem search_documents_from_items (s : Store) (tbl : List Document)
    (tsM : Document → Bool) (rank : Document → Int) (hl : String → String)
    (cf : Option (List String)) (nr : Option Nat) (off : Nat) :
    (search_documents_from s tbl tsM rank hl cf nr off).items =
      (paginate (search_rows_from s tbl tsM rank cf) nr off).map (fun r =>
        ⟨r.id, r.corpus_name, r.title, hl r.text, r.score⟩) := rfl

/-- A third concrete well-formed store: corpus `c` with one dataset and
two documents `a` and `b`. -/
def sample3 : Store where
  languages := ["english"]
  corpora := [⟨0, "c", "english"⟩]
  datasets := [⟨0, "ds", 0, 2⟩]
  documents := [⟨"a", 0, none, "ta", "english"⟩, ⟨"b", 0, none, "tb", "english"⟩]
  queries := []
  qrels := []
  nextCorpusId := 1
  nextDatasetId := 1

/-- **C5** (counterexample): the engine is free to enumerate a table in a
different order in each separate page statement — the page queries of the
document and query listings have no ORDER BY.  Under the two legal
enumerations of `sample3`'s document table (the second is a permutation of
the stored table), page 0 of one execution and page 1 of another both
return document `a`: their concatenation repeats `a` and omits `b`, so it
does not reproduce the full result set. -/
theorem C5_page_concat_counterexample :
    ([⟨"b", 0, none, "tb", "english"⟩, ⟨"a", 0, none, "ta", "english"⟩] : List Document).Perm
      sample3.documents ∧
    (get_documents_from sample3 sample3.documents "c" (some 1) 0).items ++
        (get_documents_from sample3
          [⟨"b", 0, none, "tb", "english"⟩, ⟨"a", 0, none, "ta", "english"⟩]
          "c" (some 1) 1).items =
      [⟨"a", "c", none, "ta", 0⟩, ⟨"a", "c", none, "ta", 0⟩] ∧
    (get_documents_from sample3 sample3.documents "c" none 0).items =
      [⟨"a", "c", none, "ta", 0⟩, ⟨"b", "c", none, "tb", 0⟩] ∧
    (get_documents_from sample3 sample3.documents "c" (some 1) 0).items ++
        (get_documents_from sample3
          [⟨"b", 0, none, "tb", "english"⟩, ⟨"a", 0, none, "ta", "english"⟩]
          "c" (some 1) 1).items ≠
      (get_documents_from sample3 sample3.documents "c" none 0).items := by
  refine ⟨?_, by decide, by decide, by decide⟩
  exact List.Perm.swap _ _ _

/-- **C5** (amended): for each listing operation (`get_documents`,
`get_queries`, `get_qrels`, `search_documents`) on a fixed store: the
returned total is identical for all limits, offsets and row enumerations
(it comes from a separate, order-independent count query); an offset at or
past the end of the enumerated result set yields an empty page, not an
error; and when all page statements of one listing observe the underlying
rows in a common enumeration, concatenating the pages obtained by stepping
the offset by the limit reproduces exactly that enumeration's full result
set with no duplicates or omissions.  (The engine does not pin a common
enumeration across statements for the document and query listings, whose
page queries have no ORDER BY, nor for equal-relevance QRels or
equal-(score, id) search hits — see `C5_page_concat_counterexample`.) -/
theorem C5_pagination_amended (s : Store) (cn : String) (dno dio qno : Option String)
    (mf : Option (String → Bool)) (tsM : Document → Bool) (rank : Document → Int)
    (hl : String → String) (cf : Option (List String))
    (enumQ enumQ2 : List QueryRow) (enumD enumD2 : List Document)
    (enumR enumR2 : List QRelRow) (enumS enumS2 : List Document)
    (nr nr2 : Option Nat) (off off2 : Nat) (L N : Nat) :
    ((get_queries_from s enumQ cn dno mf nr off).total_num_items =
        (get_queries_from s enumQ2 cn dno mf nr2 off2).total_num_items ∧
      ((get_queries_rows_from s enumQ cn dno mf).length ≤ off →
        (get_queries_from s enumQ cn dno mf nr off).items = []) ∧
      ((get_queries_rows_from s enumQ cn dno mf).length ≤ N * L →
        (List.range N).flatMap (fun k =>
          (get_queries_from s enumQ cn dno mf (some L) (k * L)).items) =
          (get_queries_from s enumQ cn dno mf none 0).items)) ∧
    ((get_documents_from s enumD cn nr off).total_num_items =
        (get_documents_from s enumD2 cn nr2 off2).total_num_items ∧
      ((get_documents_rows_from s enumD cn).length ≤ off →
        (get_documents_from s enumD cn nr off).items = []) ∧
      ((get_documents_rows_from s enumD cn).length ≤ N * L →
        (List.range N).flatMap (fun k =>
          (get_documents_from s enumD cn (some L) (k * L)).items) =
          (get_documents_from s enumD cn none 0).items)) ∧
    ((get_qrels_from s enumR cn dio dno qno nr off).total_num_items =
        (get_qrels_from s enumR2 cn dio dno qno nr2 off2).total_num_items ∧
      ((get_qrels_rows_from s enumR cn dio dno qno).length ≤ off →
        (get_qrels_from s enumR cn dio dno qno nr off).items = []) ∧
      ((get_qrels_rows_from s enumR cn dio dno qno).length ≤ N * L →
        (List.range N).flatMap (fun k =>
          (get_qrels_from s enumR cn dio dno qno (some L) (k * L)).items) =
          (get_qrels_from s enumR cn dio dno qno none 0).items)) ∧
    ((search_documents_from s enumS tsM rank hl cf nr off).total_num_items =
        (search_documents_from s enumS2 tsM rank hl cf nr2 off2).total_num_items ∧
      ((search_rows_from s enumS tsM rank cf).length ≤ off →
        (search_documents_from s enumS tsM rank hl cf nr off).items = []) ∧
      ((search_rows_from s enumS tsM rank cf).length ≤ N * L →
        (List.range N).flatMap (fun k =>
          (search_documents_from s enumS tsM rank hl cf (some L) (k * L)).items) =
          (search_documents_from s enumS tsM rank hl cf none 0).items)) := by
  refine ⟨⟨rfl, ?_, ?_⟩, ⟨rfl, ?_, ?_⟩, ⟨rfl, ?_, ?_⟩, ⟨rfl, ?_, ?_⟩⟩
  · intro h
    rw [get_queries_from_items, paginate_eq_nil_of_le _ _ _ h]
    rfl
  · intro h
    simp only [get_queries_from_items]
    rw [flatMap_map_eq (fun k =>
        paginate (get_queries_rows_from s enumQ cn dno mf) (some L) (k * L)),
      paginate_pages L N _ h]
    simp [paginate]
  · intro h
    rw [get_documents_from_items, paginate_eq_nil_of_le _ _ _ h]
    rfl
  · intro h
    simp only [get_documents_from_items]
    rw [flatMap_map_eq (fun k =>
        paginate (get_documents_rows_from s enumD cn) (some L) (k * L)),
      paginate_pages L N _ h]
    simp [paginate]
  · intro h
    rw [get_qrels_from_items, paginate_eq_nil_of_le _ _ _ h]
    rfl
  · intro h
    simp only [get_qrels_from_items]
    rw [flatMap_filterMap_eq (fun k =>
        paginate (get_qrels_rows_from s enumR cn dio dno qno) (some L) (k * L)),
      paginate_pages L N _ h]
    simp [paginate]
  · intro h
    rw [search_documents_from_items, paginate_eq_nil_of_le _ _ _ h]
    rfl
  · intro h
    simp only [search_documents_from_items]
    rw [flatMap_map_eq (fun k =>
        paginate (search_rows_from s enumS tsM rank cf) (some L) (k * L)),
      paginate_pages L N _ h]
    simp [paginate]

/-- Witness for C5 (amended): under the table's own enumeration, one page
of size 1 reproduces `sampleStore`'s whole one-document listing. -/
theorem C5_pagination_amended_witness :
    (List.range 1).flatMap (fun k =>
      (get_documents_from sampleStore sampleStore.documents "c" (some 1) (k * 1)).items) =
      (get_documents_from sampleStore sampleStore.documents "c" none 0).items :=
  (C5_pagination_amended sampleStore "c" none none none none (fun _ => true) (fun _ => 0)
    (fun t => t) none sampleStore.queries sampleStore.queries sampleStore.documents
    sampleStore.documents sampleStore.qrels sampleStore.qrels sampleStore.documents
    sampleStore.documents none none 0 0 1 1).2.1.2.2 (by decide)

/-- The search comparison holds exactly when the first row scores higher,
or scores are tied and its document id is not larger. -/
theorem searchLE_iff (a b : SearchRow) :
    searchLE a b = true ↔ (b.score < a.score ∨ (a.score = b.score ∧ a.id ≤ b.id)) := by
  simp [searchLE]

theorem searchLE_trans : ∀ (a b c : SearchRow),
    searchLE a b → searchLE b c → searchLE a c := by
  intro a b c hab hbc
  rw [searchLE_iff] at hab hbc ⊢
  rcases hab with h1 | ⟨h1, h2⟩
  · rcases hbc with h3 | ⟨h3, h4⟩
    · exact Or.inl (h3.trans h1)
    · exact Or.inl (h3 ▸ h1)
  · rcases hbc with h3 | ⟨h3, h4⟩
    · exact Or.inl (by rw [h1]; exact h3)
    · exact Or.inr ⟨h1.trans h3, h2.trans h4⟩

theorem searchLE_total : ∀ (a b : SearchRow), searchLE a b || searchLE b a := by
  intro a b
  rw [Bool.or_eq_true, searchLE_iff, searchLE_iff]
  rcases lt_trichotomy a.score b.score with h | h | h
  · exact Or.inr (Or.inl h)
  · rcases le_total a.id b.id with hid | hid
    · exact Or.inl (Or.inr ⟨h, hid⟩)
    · exact Or.inr (Or.inr ⟨h.symm, hid⟩)
  · exact Or.inl (Or.inl h)

/-- The full hit list of `search_documents` is sorted by score descending
with ties broken by document id ascending. -/
theorem search_rows_sorted (s : Store) (tsM : Document → Bool) (rank : Document → Int)
    (cf : Option (List String)) :
    (search_rows s tsM rank cf).Pairwise (fun a b => searchLE a b = true) := by
  unfold search_rows
  exact List.sorted_mergeSort searchLE_trans searchLE_total _

/-- **C6**: for a fixed store, match predicate and ranking function, the
returned search page (after snippet computation) is ordered by score
descending, documents of equal score ordered by id ascending; and the
operation is deterministic — the same call yields the same result. -/
theorem C6_search_order (s : Store) (tsM : Document → Bool) (rank : Document → Int)
    (hl : String → String) (cf : Option (List String)) (nr : Option Nat) (off : Nat) :
    (search_documents s tsM rank hl cf nr off).items.Pairwise
      (fun a b => b.score < a.score ∨ (a.score = b.score ∧ a.id ≤ b.id)) ∧
    search_documents s tsM rank hl cf nr off = search_documents s tsM rank hl cf nr off := by
  refine ⟨?_, rfl⟩
  rw [search_documents_items]
  have hsub : (paginate (search_rows s tsM rank cf) nr off).Sublist
      (search_rows s tsM rank cf) := by
    cases nr with
    | none => exact List.drop_sublist _ _
    | some n => exact (List.take_sublist _ _).trans (List.drop_sublist _ _)
  have hpage := (search_rows_sorted s tsM rank cf).sublist hsub
  exact hpage.map _ (fun a b hab => by
    rw [searchLE_iff] at hab
    exact hab)

/-- Whether a stored QRel meets its own dataset's `min_relevance`
threshold. -/
def meetsThreshold (s : Store) (r : QRelRow) : Bool :=
  match s.datasets.find? (fun d => d.id == r.dataset_id) with
  | none => false
  | some d => decide (r.relevance ≥ d.min_relevance)

/-- The store with all below-threshold QRels removed. -/
def pruneQRels (s : Store) : Store :=
  { s with qrels := s.qrels.filter (meetsThreshold s) }

/-- On a well-formed store, the threshold test of a QRel belonging to a
known dataset evaluates against exactly that dataset. -/
theorem meetsThreshold_of_dataset {s : Store} (hwf : s.wf) {d : Dataset} (hd : d ∈ s.datasets)
    {r : QRelRow} (hid : r.dataset_id = d.id) :
    meetsThreshold s r = decide (r.relevance ≥ d.min_relevance) := by
  unfold meetsThreshold
  rw [hid]
  rw [find?_unique (fun x => x.id == d.id) hd (by simp)
    (fun b hb hpb => wf_dataset_id_unique hwf hb hd (by simpa using hpb))]

/-- A per-dataset QRel filter is unaffected by pruning below-threshold
QRels, because the filter already applies the dataset's own threshold. -/
theorem prune_filter_eq {s : Store} (hwf : s.wf) {d : Dataset} (hd : d ∈ s.datasets)
    (p : QRelRow → Bool)
    (hp : ∀ r, p r = true → r.dataset_id = d.id ∧ decide (r.relevance ≥ d.min_relevance) = true) :
    (s.qrels.filter (meetsThreshold s)).filter p = s.qrels.filter p := by
  rw [List.filter_filter]
  apply List.filter_congr
  intro r _
  by_cases hpr : p r = true
  · rcases hp r hpr with ⟨hid, hrel⟩
    rw [hpr, meetsThreshold_of_dataset hwf hd hid, hrel]
    rfl
  · rw [Bool.not_eq_true] at hpr
    rw [hpr]
    simp

/-- Filtering a list before a `filterMap` that is already `none` outside
the filter changes nothing. -/
theorem filterMap_filter_eq {α β : Type} (p : α → Bool) (f : α → Option β) :
    ∀ (l : List α), (∀ a ∈ l, f a ≠ none → p a = true) →
      (l.filter p).filterMap f = l.filterMap f := by
  intro l
  induction l with
  | nil =>
    intro _
    simp
  | cons x xs ih =>
    intro h
    have hrest := ih (fun a ha hfa => h a (List.mem_cons_of_mem x ha) hfa)
    by_cases hp : p x = true
    · rw [List.filter_cons_of_pos hp]
      cases hfx : f x with
      | none => rw [List.filterMap_cons_none hfx, List.filterMap_cons_none hfx, hrest]
      | some y => rw [List.filterMap_cons_some hfx, List.filterMap_cons_some hfx, hrest]
    · have hfx : f x = none := by
        by_contra hne
        exact hp (h x (List.mem_cons_self x xs) hne)
      rw [List.filter_cons_of_neg hp, List.filterMap_cons_none hfx, hrest]

/-- Pruning below-threshold QRels leaves the `get_queries` result set
unchanged. -/
theorem get_queries_rows_prune (s : Store) (hwf : s.wf) (cn : String) (dno : Option String)
    (mf : Option (String → Bool)) :
    get_queries_rows (pruneQRels s) cn dno mf = get_queries_rows s cn dno mf := by
  unfold get_queries_rows pruneQRels
  dsimp only
  apply List.filterMap_congr
  intro q _
  cases hfd : s.datasets.find? (fun d => d.id == q.dataset_id) with
  | none => rfl
  | some d =>
    dsimp only
    cases hfc : s.corpora.find? (fun c => c.id == d.corpus_id) with
    | none => rfl
    | some c =>
      dsimp only
      by_cases hcond : (c.name == cn
          && (match dno with | none => true | some dn => d.name == dn)
          && (match mf with | none => true | some f => f q.text)) = true
      · rw [if_pos hcond, if_pos hcond]
        have hcount := prune_filter_eq hwf (List.mem_of_find?_eq_some hfd)
          (fun r => r.query_id == q.id && r.dataset_id == d.id
            && decide (r.relevance ≥ d.min_relevance))
          (fun r hr => by
            simp only [Bool.and_eq_true, beq_iff_eq] at hr
            exact ⟨hr.1.2, by simpa using hr.2⟩)
        rw [hcount]
      · rw [if_neg hcond, if_neg hcond]

/-- Pruning below-threshold QRels leaves the `get_documents` result set
unchanged. -/
theorem get_documents_rows_prune (s : Store) (hwf : s.wf) (cn : String) :
    get_documents_rows (pruneQRels s) cn = get_documents_rows s cn := by
  unfold get_documents_rows pruneQRels
  dsimp only
  apply List.filterMap_congr
  intro doc _
  cases hfc : s.corpora.find? (fun c => c.id == doc.corpus_id) with
  | none => rfl
  | some c =>
    dsimp only
    by_cases hname : (c.name == cn) = true
    · rw [if_pos hname, if_pos hname]
      by_cases hempty : (s.datasets.filter (fun d => d.corpus_id == c.id)).isEmpty = true
      · rw [if_pos hempty, if_pos hempty]
      · rw [if_neg hempty, if_neg hempty]
        have hmap : (s.datasets.filter (fun d => d.corpus_id == c.id)).map (fun d =>
            ((s.qrels.filter (meetsThreshold s)).filter (fun r => r.document_id == doc.id
              && r.dataset_id == d.id && decide (r.relevance ≥ d.min_relevance))).length) =
            (s.datasets.filter (fun d => d.corpus_id == c.id)).map (fun d =>
            (s.qrels.filter (fun r => r.document_id == doc.id
              && r.dataset_id == d.id && decide (r.relevance ≥ d.min_relevance))).length) := by
          apply List.map_congr_left
          intro dset hdset
          rw [prune_filter_eq hwf (List.mem_of_mem_filter hdset)
            (fun r => r.document_id == doc.id && r.dataset_id == dset.id
              && decide (r.relevance ≥ dset.min_relevance))
            (fun r hr => by
              simp only [Bool.and_eq_true, beq_iff_eq] at hr
              exact ⟨hr.1.2, by simpa using hr.2⟩)]
        rw [hmap]
    · rw [if_neg hname, if_neg hname]

/-- Pruning below-threshold QRels leaves the `get_qrels` result set
unchanged (it filters on the threshold already). -/
theorem get_qrels_rows_prune (s : Store) (cn : String) (dio dno qno : Option String) :
    get_qrels_rows (pruneQRels s) cn dio dno qno = get_qrels_rows s cn dio dno qno := by
  unfold get_qrels_rows pruneQRels
  dsimp only
  congr 1
  apply filterMap_filter_eq
  intro r _ hne
  cases hfd : s.datasets.find? (fun d => d.id == r.dataset_id) with
  | none =>
    exfalso
    apply hne
    dsimp only
    rw [hfd]
  | some d =>
    unfold meetsThreshold
    rw [hfd]
    rw [hfd] at hne
    dsimp only at hne
    cases hfc : s.corpora.find? (fun c => c.id == d.corpus_id) with
    | none =>
      rw [hfc] at hne
      exact absurd rfl hne
    | some c =>
      rw [hfc] at hne
      dsimp only at hne
      split at hne
      · rename_i hcond
        simp only [Bool.and_eq_true] at hcond
        exact hcond.1.1.1.2
      · exact absurd rfl hne

/-- **C2**: a stored QRel whose relevance is below its dataset's
`min_relevance` contributes to no relevant-count returned by the query or
document listings and appears in no `get_qrels` result (items or total):
removing all such QRels from the store leaves all three operations' outputs
unchanged, and every row of the `get_qrels` result set meets its dataset's
threshold. -/
theorem C2_threshold_filter (s : Store) (hwf : s.wf) (cn : String) (dno dio qno : Option String)
    (mf : Option (String → Bool)) (nr : Option Nat) (off : Nat) :
    get_queries (pruneQRels s) cn dno mf nr off = get_queries s cn dno mf nr off ∧
    get_documents (pruneQRels s) cn nr off = get_documents s cn nr off ∧
    get_qrels (pruneQRels s) cn dio dno qno nr off = get_qrels s cn dio dno qno nr off ∧
    ∀ r ∈ get_qrels_rows s cn dio dno qno, meetsThreshold s r = true := by
  refine ⟨?_, ?_, ?_, ?_⟩
  · unfold get_queries
    rw [get_queries_rows_prune s hwf]
  · unfold get_documents
    rw [get_documents_rows_prune s hwf]
    rfl
  · unfold get_qrels
    rw [get_qrels_rows_prune s]
    rfl
  · intro r hr
    unfold get_qrels_rows at hr
    rw [List.mem_mergeSort] at hr
    rcases List.mem_filterMap.1 hr with ⟨a, _, hf⟩
    cases hfd : s.datasets.find? (fun d => d.id == a.dataset_id) with
    | none =>
      rw [hfd] at hf
      cases hf
    | some d =>
      rw [hfd] at hf
      dsimp only at hf
      cases hfc : s.corpora.find? (fun c => c.id == d.corpus_id) with
      | none =>
        rw [hfc] at hf
        cases hf
      | some c =>
        rw [hfc] at hf
        dsimp only at hf
        split at hf
        · rename_i hcond
          cases hf
          simp only [Bool.and_eq_true] at hcond
          unfold meetsThreshold
          rw [hfd]
          exact hcond.1.1.1.2
        · cases hf

/-- Witness for C2: pruning `sampleStore`'s below-threshold QRels (there
are none below threshold, and the one stored QRel meets it) leaves all
listings unchanged. -/
theorem C2_threshold_filter_witness :
    get_queries (pruneQRels sampleStore) "c" none none none 0 =
      get_queries sampleStore "c" none none none 0 ∧
    get_documents (pruneQRels sampleStore) "c" none 0 =
      get_documents sampleStore "c" none 0 ∧
    get_qrels (pruneQRels sampleStore) "c" none none none none 0 =
      get_qrels sampleStore "c" none none none none 0 ∧
    ∀ r ∈ get_qrels_rows sampleStore "c" none none none, meetsThreshold sampleStore r = true :=
  C2_threshold_filter sampleStore (by decide) "c" none none none none none 0

end IRExplorer
